import Mathlib

/-!
# Stigmatized Messenger bot: a verification development

A shallow embedding of `src/startup/stigmatized.js` (an Express webhook that
talks to Wit.ai and to the Messenger Send API) together with theorems about
its request authentication, its session registry and its dialogue dispatcher.

Conventions of the embedding:

* JavaScript strings are Lean `String`s; `undefined` is `none`.
* A function that can `throw` returns `Except`.
* Network calls (`wit.message`, `fetch`) are recorded as a trace of `Effect`s;
  what the remote side answers is supplied by an `Env`.
* `console.log` / `console.error` lines have no effect on behaviour and are
  left out of the trace.
-/

namespace Stigmatized

set_option maxRecDepth 100000

/-! ## Request signature verification (`verifyRequestSignature`) -/

/-- A `Buffer`: the raw bytes of a request body, each taken modulo 256. -/
abbrev Buffer := List Nat

/-! ### HMAC-SHA1 (`crypto.createHmac('sha1', key)`)

Words are natural numbers below `2^32`; every addition is reduced modulo
`2^32`. -/

/-- Rotation of a 32-bit word to the left by `n` bits. -/
def rotl32 (n x : Nat) : Nat :=
  ((x <<< n) ||| (x >>> (32 - n))) % 2 ^ 32

/-- The big-endian bytes of the low `8 * width` bits of `n`. -/
def bytesBE : Nat → Nat → List Nat
  | 0, _ => []
  | width + 1, n => bytesBE width (n / 256) ++ [n % 256]

/-- The 32-bit words of a byte string, big-endian, four bytes each. -/
def wordsBE : List Nat → List Nat
  | a :: b :: c :: d :: rest =>
    ((a % 256) * 16777216 + (b % 256) * 65536 + (c % 256) * 256 + d % 256) :: wordsBE rest
  | _ => []

/-- SHA-1 padding: a `0x80` byte, zero bytes up to 56 modulo 64, then the
bit length on eight bytes. -/
def sha1Pad (msg : List Nat) : List Nat :=
  msg ++ 0x80 :: List.replicate ((119 - msg.length % 64) % 64) 0 ++
    bytesBE 8 (8 * msg.length)

/-- The message schedule: `n` more words appended to the sixteen of a block. -/
def sha1Schedule : Nat → List Nat → List Nat
  | 0, w => w
  | n + 1, w =>
    let k := w.length
    sha1Schedule n
      (w ++ [rotl32 1 (w.getD (k - 3) 0 ^^^ w.getD (k - 8) 0 ^^^ w.getD (k - 14) 0 ^^^
        w.getD (k - 16) 0)])

/-- The five working variables of SHA-1. -/
structure Sha1State where
  a : Nat
  b : Nat
  c : Nat
  d : Nat
  e : Nat
  deriving DecidableEq

/-- Round `t` of the compression function on the schedule word `wt`. -/
def sha1Round (t wt : Nat) (s : Sha1State) : Sha1State :=
  let f :=
    if t < 20 then (s.b &&& s.c) ||| ((s.b ^^^ 0xFFFFFFFF) &&& s.d)
    else if t < 40 then s.b ^^^ s.c ^^^ s.d
    else if t < 60 then (s.b &&& s.c) ||| (s.b &&& s.d) ||| (s.c &&& s.d)
    else s.b ^^^ s.c ^^^ s.d
  let k :=
    if t < 20 then 0x5A827999
    else if t < 40 then 0x6ED9EBA1
    else if t < 60 then 0x8F1BBCDC
    else 0xCA62C1D6
  { a := (rotl32 5 s.a + f + s.e + k + wt) % 2 ^ 32
    b := s.a
    c := rotl32 30 s.b
    d := s.c
    e := s.d }

/-- The rounds over the schedule words, numbered from `t`. -/
def sha1Rounds : Nat → List Nat → Sha1State → Sha1State
  | _, [], s => s
  | t, wt :: ws, s => sha1Rounds (t + 1) ws (sha1Round t wt s)

/-- The compression of one 64-byte block into the chaining value. -/
def sha1Block (h : Sha1State) (block : List Nat) : Sha1State :=
  let s := sha1Rounds 0 (sha1Schedule 64 (wordsBE block)) h
  { a := (h.a + s.a) % 2 ^ 32
    b := (h.b + s.b) % 2 ^ 32
    c := (h.c + s.c) % 2 ^ 32
    d := (h.d + s.d) % 2 ^ 32
    e := (h.e + s.e) % 2 ^ 32 }

/-- The compression of `n` consecutive blocks. -/
def sha1Blocks : Nat → Sha1State → List Nat → Sha1State
  | 0, h, _ => h
  | n + 1, h, bytes => sha1Blocks n (sha1Block h (bytes.take 64)) (bytes.drop 64)

/-- SHA-1 of a byte string: twenty bytes. -/
def sha1 (msg : List Nat) : List Nat :=
  let padded := sha1Pad msg
  let h := sha1Blocks (padded.length / 64)
    { a := 0x67452301, b := 0xEFCDAB89, c := 0x98BADCFE, d := 0x10325476, e := 0xC3D2E1F0 }
    padded
  bytesBE 4 h.a ++ bytesBE 4 h.b ++ bytesBE 4 h.c ++ bytesBE 4 h.d ++ bytesBE 4 h.e

/-- The UTF-8 bytes of a character. -/
def utf8Char (c : Char) : List Nat :=
  let n := c.toNat
  if n < 0x80 then [n]
  else if n < 0x800 then [0xC0 + n / 64, 0x80 + n % 64]
  else if n < 0x10000 then [0xE0 + n / 4096, 0x80 + n / 64 % 64, 0x80 + n % 64]
  else [0xF0 + n / 262144, 0x80 + n / 4096 % 64, 0x80 + n / 64 % 64, 0x80 + n % 64]

/-- The UTF-8 bytes of a string. -/
def utf8Bytes (s : String) : List Nat := s.data.flatMap utf8Char

/-- HMAC with SHA-1 (RFC 2104): the bytes of
`crypto.createHmac('sha1', key).update(data).digest()`. -/
def hmacSha1 (key : String) (data : Buffer) : List Nat :=
  let k := utf8Bytes key
  let k0 := if k.length > 64 then sha1 k else k
  let padded := k0 ++ List.replicate (64 - k0.length) 0
  let ipad := padded.map (fun b => b ^^^ 0x36)
  let opad := padded.map (fun b => b ^^^ 0x5c)
  sha1 (opad ++ sha1 (ipad ++ data.map (fun b => b % 256)))

/-! ### The verifier -/

/-- One lower-case hexadecimal digit, as `digest('hex')` prints it. -/
def hexDigit (n : Nat) : Char :=
  match n with
  | 0 => '0' | 1 => '1' | 2 => '2' | 3 => '3'
  | 4 => '4' | 5 => '5' | 6 => '6' | 7 => '7'
  | 8 => '8' | 9 => '9' | 10 => 'a' | 11 => 'b'
  | 12 => 'c' | 13 => 'd' | 14 => 'e' | _ => 'f'

/-- Two hexadecimal digits for one byte, high nibble first. -/
def hexByte (b : Nat) : List Char :=
  [hexDigit (b % 256 / 16), hexDigit (b % 16)]

/-- The characters of `.digest('hex')` for a digest given as bytes. -/
def hexChars : List Nat → List Char
  | [] => []
  | b :: bs => hexByte b ++ hexChars bs

/-- The string `.digest('hex')` yields for a digest given as bytes. -/
def hexDigest (bytes : List Nat) : String := String.mk (hexChars bytes)

/-- The pieces of `s.split(sep)` at the level of characters: the text is cut
at every occurrence of `sep`; the empty text yields one empty piece. -/
def splitChars (sep : Char) : List Char → List (List Char)
  | [] => [[]]
  | c :: cs =>
    if c = sep then [] :: splitChars sep cs
    else
      match splitChars sep cs with
      | [] => [[c]]
      | seg :: segs => (c :: seg) :: segs

/-- JavaScript `s.split(sep)` for a one-character separator. -/
def jsSplit (s : String) (sep : Char) : List String :=
  (splitChars sep s.data).map String.mk

/-- The body of `verifyRequestSignature(req, res, buf)` (lines 662-681).

`signature` is `req.headers["x-hub-signature"]`, `buf` the raw request body.
The result is `.ok ()` when the function returns and `.error msg` when it
throws `new Error(msg)`.  The test `!signature` holds for an absent and for
an empty header; `method = elements[0]` is read in the source and never
used. -/
def verifyRequestSignature (FB_APP_SECRET : String) (signature : Option String)
    (buf : Buffer) : Except String Unit :=
  match signature with
  | none => .ok ()
  | some sig =>
    if sig = "" then .ok ()
    else
      let elements := jsSplit sig '='
      let signatureHash := elements.get? 1
      let expectedHash := hexDigest (hmacSha1 FB_APP_SECRET buf)
      if signatureHash ≠ some expectedHash then
        .error "Couldn't validate the request signature."
      else .ok ()

/-! ## Webhook subscription (`app.get('/webhook')`) -/

/-- A value found in `req.query`: absent, a string, or (for a repeated or
bracketed parameter) an array or object, kept here by its items. -/
inductive QueryValue
  | undefined
  | str (s : String)
  | arr (items : List String)
  | obj (fields : List (String × String))
  deriving DecidableEq

/-- The three query parameters the subscription handler reads. -/
structure Query where
  hub_mode : QueryValue
  hub_verify_token : QueryValue
  hub_challenge : QueryValue
  deriving DecidableEq

/-- JavaScript `v === s` for a query value `v` and a string-or-null `s`
(`none` is `null`): only two equal strings are strictly equal. -/
def QueryValue.strictEq (v : QueryValue) (s : Option String) : Bool :=
  match v, s with
  | .str a, some b => decide (a = b)
  | _, _ => false

/-- What a handler does with the response object: `res.send(body)` or
`res.sendStatus(code)`. -/
inductive Reply
  | send (body : QueryValue)
  | sendStatus (code : Nat)
  deriving DecidableEq

/-- The HTTP status of a reply: `res.send` answers 200. -/
def Reply.status : Reply → Nat
  | .send _ => 200
  | .sendStatus code => code

/-- The handler of `GET /webhook` (lines 221-228).  `FB_VERIFY_TOKEN` is
`none` while it is still `null`, before `crypto.randomBytes` has called
back. -/
def getWebhook (FB_VERIFY_TOKEN : Option String) (query : Query) : Reply :=
  if query.hub_mode.strictEq (some "subscribe") &&
      query.hub_verify_token.strictEq FB_VERIFY_TOKEN then
    .send query.hub_challenge
  else
    .sendStatus 400

/-! ## Session registry (`sessions`, `findOrCreateSession`) -/

/-- One decimal digit. -/
def decDigit (n : Nat) : Char :=
  match n % 10 with
  | 0 => '0' | 1 => '1' | 2 => '2' | 3 => '3' | 4 => '4'
  | 5 => '5' | 6 => '6' | 7 => '7' | 8 => '8' | _ => '9'

/-- The last `width` decimal digits of `n`, zero padded. -/
def padDigits : Nat → Nat → List Char
  | 0, _ => []
  | width + 1, n => padDigits width (n / 10) ++ [decDigit n]

/-- Year, month and day of the proleptic Gregorian calendar for a number of
days since 1970-01-01. -/
def civilFromDays (days : Nat) : Nat × Nat × Nat :=
  let z := days + 719468
  let era := z / 146097
  let doe := z % 146097
  let yoe := (doe - doe / 1460 + doe / 36524 - doe / 146096) / 365
  let doy := doe - (365 * yoe + yoe / 4 - yoe / 100)
  let mp := (5 * doy + 2) / 153
  let d := doy - (153 * mp + 2) / 5 + 1
  let m := if mp < 10 then mp + 3 else mp - 9
  let y := yoe + era * 400
  (if m ≤ 2 then y + 1 else y, m, d)

/-- The string `new Date(ms).toISOString()` for a time value `ms`
(milliseconds since the epoch, as `new Date()` reads the clock):
`YYYY-MM-DDTHH:mm:ss.sssZ`, with the expanded `+YYYYYY` year past 9999. -/
def toISOString (ms : Nat) : String :=
  let (y, m, d) := civilFromDays (ms / 86400000)
  let t := ms % 86400000
  let year := if y ≤ 9999 then padDigits 4 y else '+' :: padDigits 6 y
  String.mk (year ++ '-' :: padDigits 2 m ++ '-' :: padDigits 2 d ++
    'T' :: padDigits 2 (t / 3600000) ++ ':' :: padDigits 2 (t / 60000 % 60) ++
    ':' :: padDigits 2 (t / 1000 % 60) ++ '.' :: padDigits 3 (t % 1000) ++ ['Z'])

/-- A session entry `{fbid: ..., context: {}}`; the context is a list of
key/value pairs, empty at creation. -/
structure Session where
  fbid : String
  context : List (String × String)
  deriving DecidableEq

/-- The object `sessions`: its string keys in insertion order, each with its
entry. -/
abbrev Sessions := List (String × Session)

/-- The list `Object.keys(sessions)`. -/
def Sessions.keys (sessions : Sessions) : List String := sessions.map Prod.fst

/-- The property read `sessions[k]`. -/
def Sessions.get (sessions : Sessions) (k : String) : Option Session :=
  List.lookup k sessions

/-- The assignment `sessions[k] = v`: an existing key keeps its place and
gets the new entry, a new key is added at the end. -/
def Sessions.set (sessions : Sessions) (k : String) (v : Session) : Sessions :=
  if k ∈ sessions.keys then
    sessions.map (fun e => if e.1 = k then (k, v) else e)
  else
    sessions ++ [(k, v)]

/-- The callback of the `forEach` in `findOrCreateSession` (lines 190-195),
applied to the key `k`: it sets `sessionId` when the entry belongs to `fbid`.
`none` is the value `undefined` of the variable. -/
def scanStep (sessions : Sessions) (fbid : String) (sessionId : Option String)
    (k : String) : Option String :=
  match sessions.get k with
  | some entry => if entry.fbid = fbid then some k else sessionId
  | none => sessionId

/-- The variable `sessionId` after `Object.keys(sessions).forEach(...)`. -/
def scanSessions (sessions : Sessions) (fbid : String) : Option String :=
  sessions.keys.foldl (scanStep sessions fbid) none

/-- The function `findOrCreateSession(fbid)` (lines 187-202), with the
registry passed in and out and `now` the clock reading `new Date()` would
take.  The test `!sessionId` holds for `undefined` and for the empty
string. -/
def findOrCreateSession (sessions : Sessions) (fbid : String) (now : Nat) :
    String × Sessions :=
  match scanSessions sessions fbid with
  | some k =>
    if k = "" then
      (toISOString now, sessions.set (toISOString now) { fbid := fbid, context := [] })
    else (k, sessions)
  | none =>
    (toISOString now, sessions.set (toISOString now) { fbid := fbid, context := [] })

/-- The sessions a registry holds for a user. -/
def Sessions.ofUser (sessions : Sessions) (fbid : String) : List (String × Session) :=
  sessions.filter (fun e => decide (e.2.fbid = fbid))

/-- The registry states the program can be in: it starts empty and is only
ever changed by `findOrCreateSession`. -/
inductive Sessions.Reachable : Sessions → Prop
  | empty : Sessions.Reachable []
  | step (sessions : Sessions) (fbid : String) (now : Nat) :
      Sessions.Reachable sessions →
      Sessions.Reachable (findOrCreateSession sessions fbid now).2

/-! ## Canned texts (`responses`, lines 357-370) -/

namespace responses

/-- The list `responses.feelings`. -/
def feelings : List String :=
  ["I can't say I understand all you're going through but I am here to help. \n\nWould you like me to recommend steps to help you recover from such trauma",
   "I know it must be really difficult right now but all hope is not lost. \n\nI can help you with steps to get better, Would you want that?",
   "This must be very difficult but believe me when I say all hope is not lost. \n\nAllow me to recommend steps to help you with this experience."]

/-- The list `responses.step_one`. -/
def step_one : List String :=
  ["*Open up about what happened to you\n\nIt can be extraordinarily difficult to admit that you were raped or sexually assaulted. There’s a stigma attached. It can make you feel dirty and weak. You may also be afraid of how others will react. Will they judge you? Look at you differently? It seems easier to downplay what happened or keep it a secret. But when you stay silent, you deny yourself help and reinforce your victimhood. \n\nReach out to someone you trust. It’s common to think that if you don’t talk about your rape, it didn’t really happen. But you can’t heal when you’re avoiding the truth. And hiding only adds to feelings of shame. As scary as it is to open up, it will set you free. However, it’s important to be selective about who you tell, especially at first. Your best bet is someone who will be supportive, empathetic, and calm. If you don’t have someone you trust, talk to a therapist or call a rape crisis hotline. \n\nChallenge your sense of helplessness and isolation. Trauma leaves you feeling powerless and vulnerable. It’s important to remind yourself that you have strengths and coping skills that can get you through tough times. One of the best ways to reclaim your sense of power is by helping others: volunteer your time, give blood, reach out to a friend in need, or donate to your favorite charity. \n\nConsider joining a support group for other rape or sexual abuse survivors. Support groups can help you feel less isolated and alone. They also provide invaluable information on how to cope with symptoms and work towards recovery. If you can’t find a support group in your area, look for an online group. \n\n Would you want me to continue"]

/-- The list `responses.step_two`. -/
def step_two : List String :=
  ["*Cope with feelings of guilt and shame \n\nEven if you intellectually understand that you’re not to blame for the rape or sexual attack, you may still struggle with a sense of guilt or shame. These feelings can surface immediately following the assault or arise years after the attack. But as you acknowledge the truth of what happened, it will be easier to fully accept that you are not responsible. You did not bring the assault on yourself and you have nothing to be ashamed about. \n\nFeelings of guilt and shame often stem from misconceptions such as:\n\nYou didn’t stop the assault from happening. After the fact, it’s easy to second guess what you did or didn’t do. But when you’re in the midst of an assault, your brain and body are in shock. You can’t think clearly. Many people say they feel “frozen.” Don’t judge yourself for this natural reaction to trauma. You did the best you could under extreme circumstances. If you could have stopped the assault, you would have.\n\nYou trusted someone you “shouldn’t” have. One of the most difficult things to deal with following an assault by someone you know is the violation of trust. It’s natural to start questioning yourself and wondering if you missed warning signs. Just remember that your attacker is the only one to blame. Don’t beat yourself up for assuming that your attacker was a decent human being. Your attacker is the one who should feel guilty and ashamed, not you.\n\nYou were drunk or not cautious enough. Regardless of the circumstances, the only one who is responsible for the assault is the perpetrator. You did not ask for it or deserve what happened to you. Assign responsibility where it belongs: on the rapist. \n\nI'm sure this is large. I can continue if you want that"]

/-- The list `responses.step_three`. -/
def step_three : List String :=
  ["*Prepare for flashbacks and upsetting memories\n\nWhen you go through something stressful, your body temporarily goes into “fight-or-flight” mode. You’re hyper sensitive to the smallest of stimuli. This is the case for many rape survivors. Flashbacks, nightmares, and intrusive memories are extremely common, especially in the first few months following the assault. If your nervous system remains “stuck” in the long-term and you develop post-traumatic stress disorder (PTSD), they can last much longer.\n\nTo reduce the stress of flashbacks and upsetting memories:\n\nTry to anticipate and prepare for triggers. Common triggers include anniversary dates; people or places associated with the rape; and certain sights, sounds, or smells. \n\nPay attention to your body’s danger signals. Your body and emotions give you clues when you’re starting to feel stressed and unsafe. \n\nTake immediate steps to self-soothe. When you notice any of the above symptoms, it’s important to quickly act to calm yourself down before they spiral out of control. One of the quickest and most effective ways to calm anxiety and panic is to slow down your breathing.\n\nTips for dealing with flashbacks\n\nIt’s not always possible to prevent flashbacks. But if you find yourself losing touch with the present and feeling like the sexual assault is happening all over again, there are actions you can take.\n\nAccept and reassure yourself that this is a flashback, not reality. The traumatic event is over and you survived. Here’s a simple script that can help: “I am feeling [panicked, frightened, overwhelmed, etc.] because I am remembering the rape/sexual assault, but as I look around I can see that the assault isn’t happening right now and I’m not actually in danger.”\n\nCan we go to the next one?"]

/-- The list `responses.step_four`. -/
def step_four : List String :=
  ["*Reconnect to your body and feelings\n\nSince your nervous system is in a hypersensitive state following a rape or assault, you may start trying to numb yourself or avoid any associations with the trauma. But you can’t selectively numb your feelings. When you shut down the unpleasant sensations, you also shut down your self-awareness and capacity for joy. You end up disconnected both emotionally and physically—existing, but not fully living.\n\nSigns that you’re avoiding and numbing in unhelpful ways:\n\nFeeling physically shut down. You don’t feel bodily sensations like you used to (you might even have trouble differentiating between pleasure and pain).\n\nFeeling separate from your body or surroundings (you may feel like you’re watching yourself or the situation you’re in, rather than participating in it).\n\nHaving trouble concentrating and remembering things.\n\nUsing stimulants, risky activities, or physical pain to feel alive and counteract the empty feeling inside of you.\n\nCompulsively using drugs or alcohol.\n\nEscaping through fantasies, daydreams, or excessive TV, video games, etc.\n\nFeeling detached from the world, the people in your life, and the activities you used to enjoy.\n\nTo recover after rape, you need to reconnect to your body and feelings.\n\nIt’s frightening to get back in touch with your body and feelings following a sexual trauma. In many ways, rape makes your body the enemy, something that’s been violated and contaminated—something you may hate or want to ignore. It’s also scary to face the intense feelings associated with the assault. But while the process of reconnecting may feel threatening, it’s not actually dangerous. Feelings, while powerful, are not reality. They won’t hurt you or drive you insane. The true danger to your physical and mental health comes from avoiding them.\n\nOnce you’re back in touch with your body and feelings, you will feel more safe, confident, and powerful.\n\nThis is the last step, I bet you want to hear it all"]

/-- The list `responses.final_step`. -/
def final_step : List String :=
  ["*Stay connected\n\nIt’s common to feel isolated and disconnected from others following a sexual assault. You may feel tempted to withdraw from social activities and your loved ones. But it’s important to stay connected to life and the people who care about you. Support from other people is vital to your recovery. But remember that support doesn’t mean that you always have to talk about or dwell on what happened. Having fun and laughing with people who care about you can be equally healing.\n\nParticipate in social activities, even if you don’t feel like it. \n\nMake new friends. If you live alone or far from family and friends, try to reach out and make new friends. \n\n\n\nNurture yourself\n\nHealing from sexual trauma is a gradual, ongoing process. It doesn’t happen overnight, nor do the memories of the trauma ever disappear completely. This can make life seem difficult at times. But there are many steps you can take to cope with the residual symptoms and reduce your anxiety and fear.\n\nTake time to rest and restore your body’s balance. That means taking a break when you’re tired and avoiding the temptation to lose yourself by throwing yourself into activities. Avoid doing anything compulsively, including working. \n\nBe smart about media consumption. Avoid watching any program that could trigger bad memories or flashbacks. This includes obvious things such as news reports about sexual violence and sexually explicit TV shows and movies.\n\nAvoid alcohol and drugs. \n\nTake care of yourself physically. It’s always important to eat right, exercise regularly, and get plenty of sleep. Exercise in particular can soothe your traumatized nervous system, relieve stress, and help you feel more powerful and in control of your body.\n\nDid you report this to the police"]

end responses

/-- The text literal of `sendAdvice` (line 150). -/
def adviceText : String :=
  "I want to make it clear to you that it is not your fault that this happened. Therefore you don't have any reason to blame yourself. \n1. They choose to rapists, you are the victim not the guilty. \n2. There are no surefire way to identify a rapist. Sometimes they are completely normal, nice, charming and non-threatening. \n3. Rape is a crime of opportunity. Studies show that rapists choose victims based on their vulnerability, not on how sexy they appear or how flirtatious they are.\n4. Date rapists often defend themselves by claiming the assault was a drunken mistake or miscommunication. But research shows that the vast majority of date rapists are repeat offenders. These men target vulnerable people and often ply them with alcohol in order to rape them. \n5. Just because you’ve previously consented to sex with someone doesn’t give them perpetual rights to your body. If your spouse, boyfriend, or lover forces sex against your will, it’s rape. \nOpening up can be a good step towards healing. \n\nCan you tell me how it happened?"

/-- The text `getStartedReply` appends to the greeting (line 620). -/
def welcomeText : String :=
  "\n\nWelcome to Stigmatized. \n\nI am Chloe, here to offer any help I can, to you or any other person who has been involved in any form of sexual assault, and hey!, it's just between you and I. \n\nHave you ever experienced any form of sexual assault before? "

/-! ## Outbound messages (Send API request bodies) -/

/-- One entry of `quick_replies`. -/
structure QuickReply where
  content_type : String
  title : String
  payload : String
  deriving DecidableEq

/-- The JSON body a send function posts to `/me/messages`: `recipient.id`,
`messaging_type` (absent in `fbMessage`), `message.text` (absent when the
text expression is `undefined`) and `message.quick_replies` (absent in
`fbMessage`). -/
structure OutboundAction where
  recipient_id : String
  messaging_type : Option String
  text : Option String
  quick_replies : Option (List QuickReply)
  deriving DecidableEq

/-- The titles of the quick replies of an action, in order. -/
def OutboundAction.titles (a : OutboundAction) : List String :=
  (a.quick_replies.getD []).map QuickReply.title

/-- The request body of `fbMessage(id, text)` (lines 70-74). -/
def fbMessage (id : String) (text : Option String) : OutboundAction :=
  { recipient_id := id, messaging_type := none, text := text, quick_replies := none }

/-- The request body of `whenMessage(id)` (lines 90-128). -/
def whenMessage (id : String) : OutboundAction :=
  { recipient_id := id
    messaging_type := some "RESPONSE"
    text := some "When did this occur:"
    quick_replies := some
      [ { content_type := "text", title := "Today", payload := "payload_1" },
        { content_type := "text", title := "Yesterday", payload := "payload_2" },
        { content_type := "text", title := "Last Week", payload := "payload_2" },
        { content_type := "text", title := "Last Month", payload := "payload_2" },
        { content_type := "text", title := "More than 3 months", payload := "payload_2" },
        { content_type := "text", title := "More than 6 months", payload := "payload_2" },
        { content_type := "text", title := "More than a year", payload := "payload_2" } ] }

/-- The request body of `sendAdvice(id)` (lines 145-163). -/
def sendAdvice (id : String) : OutboundAction :=
  { recipient_id := id
    messaging_type := some "RESPONSE"
    text := some adviceText
    quick_replies := some
      [ { content_type := "text", title := "Yeah", payload := "Positive" },
        { content_type := "text", title := "Nah", payload := "Negative" } ] }

/-- Rounding of the natural number `p` to 53 significant bits, to nearest
with ties to even: the rounding a double-precision product undergoes. -/
def roundTo53 (p : Nat) : Nat :=
  if p < 2 ^ 53 then p
  else
    let shift := Nat.log2 p - 52
    let q := p / 2 ^ shift
    let rem := p % 2 ^ shift
    let half := 2 ^ (shift - 1)
    if rem > half ∨ (rem = half ∧ q % 2 = 1) then (q + 1) * 2 ^ shift
    else q * 2 ^ shift

/-- The value of `Math.floor(Math.random() * n)` when `Math.random()` yields
the double `draw / 2^53` (the engine draws 53 random bits, so
`draw < 2^53`): the product `draw * n / 2^53` is rounded to a double, then
floored.  Numbers are counted in units of `2^-53`. -/
def randomIndex (draw n : Nat) : Nat := roundTo53 (draw * n) / 2 ^ 53

/-- The request body of `recommendStep(id)` (lines 372-392); `draw` is the
value `Math.random()` takes. -/
def recommendStep (draw : Nat) (id : String) : OutboundAction :=
  { recipient_id := id
    messaging_type := some "RESPONSE"
    text := responses.feelings.get? (randomIndex draw responses.feelings.length)
    quick_replies := some
      [ { content_type := "text", title := "Yeah, Sure", payload := "SURE" },
        { content_type := "text", title := "Maybe Later", payload := "Not now" } ] }

/-- The request body of `recommendStepOne(id)` (lines 408-426). -/
def recommendStepOne (id : String) : OutboundAction :=
  { recipient_id := id
    messaging_type := some "RESPONSE"
    text := responses.step_one.get? 0
    quick_replies := some
      [ { content_type := "text", title := "Go on", payload := "SURE" },
        { content_type := "text", title := "Maybe Later", payload := "GOOD" } ] }

/-- The request body of `recommendStepTwo(id)` (lines 442-460). -/
def recommendStepTwo (id : String) : OutboundAction :=
  { recipient_id := id
    messaging_type := some "RESPONSE"
    text := responses.step_two.get? 0
    quick_replies := some
      [ { content_type := "text", title := "Keep Going", payload := "SURE" },
        { content_type := "text", title := "Lets take a break", payload := "GOOD" } ] }

/-- The request body of `recommendStepThree(id)` (lines 476-494). -/
def recommendStepThree (id : String) : OutboundAction :=
  { recipient_id := id
    messaging_type := some "RESPONSE"
    text := responses.step_three.get? 0
    quick_replies := some
      [ { content_type := "text", title := "Definitely", payload := "SURE" },
        { content_type := "text", title := "Not now", payload := "GOOD" } ] }

/-- The request body of `recommendStepFour(id)` (lines 510-528); its text is
read from `responses.step_three`, as in the source. -/
def recommendStepFour (id : String) : OutboundAction :=
  { recipient_id := id
    messaging_type := some "RESPONSE"
    text := responses.step_three.get? 0
    quick_replies := some
      [ { content_type := "text", title := "Next Step", payload := "SURE" },
        { content_type := "text", title := "Not now", payload := "GOOD" } ] }

/-- The request body of `recommendFinalStep(id)` (lines 544-562). -/
def recommendFinalStep (id : String) : OutboundAction :=
  { recipient_id := id
    messaging_type := some "RESPONSE"
    text := responses.final_step.get? 0
    quick_replies := some
      [ { content_type := "text", title := "I reported", payload := "Yes I did" },
        { content_type := "text", title := "I did not", payload := "Not now" } ] }

/-- The request body of `getStartedReply(id, greeting)` (lines 615-637). -/
def getStartedReply (id greeting : String) : OutboundAction :=
  { recipient_id := id
    messaging_type := some "RESPONSE"
    text := some (greeting ++ welcomeText)
    quick_replies := some
      [ { content_type := "text", title := "Yes, recently", payload := "YES" },
        { content_type := "text", title := "Yes, long ago", payload := "YES" },
        { content_type := "text", title := "No", payload := "NO" } ] }

/-! ## Classifier results and the environment -/

/-- A primitive JavaScript value, as found in the `value` field of a
classifier match. -/
inductive JsValue
  | undefined
  | null
  | bool (b : Bool)
  | num (n : Int)
  | str (s : String)
  deriving DecidableEq

/-- JavaScript truthiness of a primitive value. -/
def JsValue.truthy : JsValue → Bool
  | .undefined => false
  | .null => false
  | .bool b => b
  | .num n => decide (n ≠ 0)
  | .str s => decide (s ≠ "")

/-- One candidate match of the classifier; only `value` is read. -/
structure WitMatch where
  value : JsValue
  deriving DecidableEq

/-- An object from names to ranked candidate matches. -/
abbrev WitMap := List (String × List WitMatch)

/-- The value `wit.message(text)` resolves to: `{entities, intents, traits}`,
each possibly absent. -/
structure ClassifierResult where
  entities : Option WitMap
  intents : Option WitMap
  traits : Option WitMap
  deriving DecidableEq

/-- The helper `firstValue(obj, key)` (lines 277-287): the `value` of the
first match under `key` when it is truthy, and `null` (here `none`)
otherwise. -/
def firstValue (obj : Option WitMap) (key : String) : Option JsValue :=
  match obj with
  | none => none
  | some m =>
    match List.lookup key m with
    | none => none
    | some [] => none
    | some (first :: _) => if first.value.truthy then some first.value else none

/-- The JSON a Graph API profile request resolves to: `error.message` when
there is one, and `first_name`. -/
structure ProfileJson where
  error_message : Option String
  first_name : Option String
  deriving DecidableEq

/-- String conversion of a string-or-undefined operand of `+`. -/
def jsToString : Option String → String
  | none => "undefined"
  | some s => s

/-- JavaScript truthiness of a string-or-undefined value. -/
def truthyString : Option String → Bool
  | none => false
  | some s => decide (s ≠ "")

/-- What the remote services answer: `witMessage text` is the outcome of the
promise `wit.message(text)`, `fetchProfile psid` the outcome of the profile
request; `.error` stands for a rejected promise. -/
structure Env where
  witMessage : String → Except String ClassifierResult
  fetchProfile : String → Except String ProfileJson

/-- The network calls a handler makes, in program order. -/
inductive Effect
  | witMessage (text : String)
  | fetchProfile (psid : String)
  | send (body : OutboundAction)
  deriving DecidableEq

/-- The request bodies sent to the Send API in a trace. -/
def sends : List Effect → List OutboundAction
  | [] => []
  | .send body :: rest => body :: sends rest
  | _ :: rest => sends rest

/-- The texts handed to the classifier in a trace. -/
def classified : List Effect → List String
  | [] => []
  | .witMessage text :: rest => text :: classified rest
  | _ :: rest => classified rest

/-! ## The message handler (`app.post('/webhook')`) -/

/-- The list `responses.greetings` local to `helloPostback` (line 588). -/
def helloGreetings : List String := ["Hey ", "Hello ", "Hi "]

/-- The function `helloPostback(sender_psid)` (lines 578-597): the profile is
fetched; unless the request fails or answers an error message, a greeting
drawn from `helloGreetings` is sent.  `draw` is the value `Math.random()`
takes. -/
def helloPostback (env : Env) (draw : Nat) (sender_psid : String) : List Effect :=
  .fetchProfile sender_psid ::
    match env.fetchProfile sender_psid with
    | .error _ => []
    | .ok json =>
      if truthyString json.error_message then []
      else
        let name := json.first_name
        let greeting :=
          jsToString (helloGreetings.get? (randomIndex draw helloGreetings.length)) ++
            jsToString name ++ "!"
        [.send (fbMessage sender_psid (some greeting))]

/-- The function `getStartedPostback(sender_psid)` (lines 599-613). -/
def getStartedPostback (env : Env) (sender_psid : String) : List Effect :=
  .fetchProfile sender_psid ::
    match env.fetchProfile sender_psid with
    | .error _ => []
    | .ok json =>
      if truthyString json.error_message then []
      else
        let name := json.first_name
        let greeting := "Hi " ++ jsToString name ++ "!"
        [.send (getStartedReply sender_psid greeting)]

/-- The lists `responses.thanks` and `responses.byes` local to the handler
(lines 268-275). -/
def handlerThanks : List String := ["You are welcome", "Welcome", "Glad I could help"]

/-- See `handlerThanks`. -/
def handlerByes : List String := ["Bye bye", "Goodbye", "Bye"]

/-- The callback run when `wit.message(text)` resolves (lines 262-336): the
`if`/`else if` chain choosing the reply; `draw` is the value `Math.random()`
takes in the branch that calls it.  The values `introducing`, `healthstatus`
and `attacked` are computed in the source and never used. -/
def dispatch (env : Env) (draw : Nat) (sender text : String) (result : ClassifierResult) :
    List Effect :=
  let greetings := firstValue result.traits "wit$greetings"
  let getStarted := firstValue result.traits "wit_started"
  let getDate := firstValue result.entities "wit$datetime:datetime"
  let getStory := firstValue result.entities "wit$agenda_entry:agenda_entry"
  let thanks := firstValue result.traits "wit$thanks"
  let byes := firstValue result.traits "wit$bye"
  if greetings.isSome then
    helloPostback env draw sender
  else if text = "Yeah" then
    [.send (fbMessage sender (some "Please go on. I'm here for you"))]
  else if text = "Not now" ∨ text = "Maybe Later" ∨ text = "Lets take a break" then
    [.send (fbMessage sender (some "Alright, just type 'step' when you are ready"))]
  else if text = "Yeah, Sure" ∨ text = "Yeah Sure" ∨ text = "step" ∨ text = "ok" ∨
      text = "sure" ∨ text = "Nah" then
    [.send (recommendStepOne sender)]
  else if text = "Go on" then
    [.send (recommendStepTwo sender)]
  else if text = "Keep Going" then
    [.send (recommendStepThree sender)]
  else if text = "Next Step" then
    [.send (recommendStepFour sender)]
  else if text = "Definitely" then
    [.send (recommendFinalStep sender)]
  else if text = "I reported" ∨ text = "I did Not" then
    [.send (fbMessage sender (some "It may too much to ask but reporting a rape case to appropriate authorities is your civic responsibility and you may be saving another victim and at the same time making sure the guilty does not go free which will also deter future offenders."))]
  else if text = "No" ∨ text = "no" then
    [.send (fbMessage sender (some "Rape is a very serious act which is a danger to human existence. Perhaps I can help you recommend ways to help someone who has experienced such an act."))]
  else if text = "Yes, long ago" ∨ text = "Yes, recently" ∨ getStarted.isSome then
    [.send (whenMessage sender)]
  else if getDate.isSome ∨ text = "More than 6 months" then
    [.send (sendAdvice sender)]
  else if getStory.isSome then
    [.send (recommendStep draw sender)]
  else if thanks.isSome then
    [.send (fbMessage sender (handlerThanks.get? (randomIndex draw handlerThanks.length)))]
  else if byes.isSome then
    [.send (fbMessage sender (handlerByes.get? (randomIndex draw handlerByes.length)))]
  else
    [.send (fbMessage sender
      (some ("This is embarrassing but I cannot understand your text: " ++ text ++ ".")))]

/-- The texts the `if`/`else if` chain of `dispatch` compares `text` with. -/
def exactLabels : List String :=
  ["Yeah", "Not now", "Maybe Later", "Lets take a break", "Yeah, Sure", "Yeah Sure",
   "step", "ok", "sure", "Nah", "Go on", "Keep Going", "Next Step", "Definitely",
   "I reported", "I did Not", "No", "no", "Yes, long ago", "Yes, recently",
   "More than 6 months"]

/-- An attachment of a message; its content is never read. -/
structure Attachment where
  type : String
  url : String
  deriving DecidableEq

/-- The object `event.message`: `is_echo` (absent counts as false), `text`
and `attachments`, each possibly absent. -/
structure Message where
  is_echo : Bool
  text : Option String
  attachments : Option (List Attachment)
  deriving DecidableEq

/-- The object `event.postback`. -/
structure Postback where
  payload : Option String
  deriving DecidableEq

/-- The object `event.sender`. -/
structure Sender where
  id : String
  deriving DecidableEq

/-- One element of `entry.messaging`. -/
structure Event where
  sender : Option Sender
  message : Option Message
  postback : Option Postback
  deriving DecidableEq

/-- The branch `else if (event.postback)` and the final `else` of the event
callback (lines 341-350).  `.error` is the `TypeError` thrown by
`event.sender.id` on an event without sender. -/
def handlePostback (env : Env) (event : Event) : Except String (List Effect) :=
  match event.postback with
  | some postback =>
    match event.sender with
    | none => .error "TypeError: Cannot read properties of undefined (reading 'id')"
    | some s =>
      let sender := s.id
      if postback.payload = some "Greeting" then .ok (getStartedPostback env sender)
      else .ok []
  | none => .ok []

/-- The branch of the event callback taken for a message that is not an echo
(lines 241-340).  The test `else if (text)` fails for an absent and for an
empty text; a rejected `wit.message(text)` is only logged. -/
def handleMessage (env : Env) (draw : Nat) (event : Event) (message : Message) :
    Except String (List Effect) :=
  match event.sender with
  | none => .error "TypeError: Cannot read properties of undefined (reading 'id')"
  | some s =>
    let sender := s.id
    match message.attachments with
    | some _ =>
      .ok [.send (fbMessage sender
        (some "Thank you for always keeping in touch but I do not understand."))]
    | none =>
      match message.text with
      | none => .ok []
      | some text =>
        if text = "" then .ok []
        else
          .ok (.witMessage text ::
            match env.witMessage text with
            | .error _ => []
            | .ok result => dispatch env draw sender text result)

/-- The body of the inner `forEach` callback (lines 239-351) for one event:
the network calls made, or `.error` when the callback throws (nothing has
been sent for the event at that point). -/
def handleEvent (env : Env) (draw : Nat) (event : Event) : Except String (List Effect) :=
  match event.message with
  | some message =>
    if message.is_echo then handlePostback env event
    else handleMessage env draw event message
  | none => handlePostback env event

/-- A sample environment for worked examples: the classifier finds nothing
and the profile request answers the first name `Ana`. -/
def sampleEnv : Env :=
  { witMessage := fun _ => .ok { entities := some [], intents := some [], traits := some [] }
    fetchProfile := fun _ => .ok { error_message := none, first_name := some "Ana" } }

/-- The bytes of the JSON text of `sampleData`, as the platform would post
it. -/
def sampleBody : Buffer :=
  utf8Bytes "\x7b\"object\":\"page\",\"entry\":[\x7b\"messaging\":[\x7b\"sender\":\x7b\"id\":\"U1\"\x7d,\"message\":\x7b\"text\":\"step\"\x7d\x7d]\x7d]\x7d"

/-- The text `sha1=` followed by the digest of `sampleBody` under the secret
`secret`. -/
def sampleSignature : String := "sha1=14af6933c9dd2c52ef24f4d51f5fe8939167021a"

/-- A classifier result in which nothing was detected. -/
def emptyResult : ClassifierResult :=
  { entities := some [], intents := some [], traits := some [] }

/-- A sample environment in which every call of `wit.message` is rejected. -/
def failingEnv : Env :=
  { witMessage := fun _ => .error "Error: Wit responded with status: 500"
    fetchProfile := fun _ => .ok { error_message := none, first_name := some "Ana" } }

/-! ## The dispatcher as the specification words it

Section 4.3 of the specification describes the text dispatcher as four rule
groups tried in order, the first match winning: (a) a detected greeting
trait, (b) a table from exact label texts to scripted actions, (c) the other
detected traits and entities, (d) the fallback.  `specDispatch` is that
description; it is compared with `dispatch`, which follows the source. -/

/-- Rule group (b): the table from exact label texts to actions. -/
def labelTable (sender : String) : List (String × OutboundAction) :=
  [ ("Yeah", fbMessage sender (some "Please go on. I'm here for you")),
    ("Not now", fbMessage sender (some "Alright, just type 'step' when you are ready")),
    ("Maybe Later", fbMessage sender (some "Alright, just type 'step' when you are ready")),
    ("Lets take a break",
      fbMessage sender (some "Alright, just type 'step' when you are ready")),
    ("Yeah, Sure", recommendStepOne sender),
    ("Yeah Sure", recommendStepOne sender),
    ("step", recommendStepOne sender),
    ("ok", recommendStepOne sender),
    ("sure", recommendStepOne sender),
    ("Nah", recommendStepOne sender),
    ("Go on", recommendStepTwo sender),
    ("Keep Going", recommendStepThree sender),
    ("Next Step", recommendStepFour sender),
    ("Definitely", recommendFinalStep sender),
    ("I reported", fbMessage sender (some "It may too much to ask but reporting a rape case to appropriate authorities is your civic responsibility and you may be saving another victim and at the same time making sure the guilty does not go free which will also deter future offenders.")),
    ("I did Not", fbMessage sender (some "It may too much to ask but reporting a rape case to appropriate authorities is your civic responsibility and you may be saving another victim and at the same time making sure the guilty does not go free which will also deter future offenders.")),
    ("No", fbMessage sender (some "Rape is a very serious act which is a danger to human existence. Perhaps I can help you recommend ways to help someone who has experienced such an act.")),
    ("no", fbMessage sender (some "Rape is a very serious act which is a danger to human existence. Perhaps I can help you recommend ways to help someone who has experienced such an act.")),
    ("Yes, long ago", whenMessage sender),
    ("Yes, recently", whenMessage sender),
    ("More than 6 months", sendAdvice sender) ]

/-- Rule group (c): the replies to the other detected traits and entities
(started, date/time, story/agenda, thanks, bye), `none` when none is
detected. -/
def specTraitRules (draw : Nat) (sender : String) (result : ClassifierResult) :
    Option OutboundAction :=
  if (firstValue result.traits "wit_started").isSome then
    some (whenMessage sender)
  else if (firstValue result.entities "wit$datetime:datetime").isSome then
    some (sendAdvice sender)
  else if (firstValue result.entities "wit$agenda_entry:agenda_entry").isSome then
    some (recommendStep draw sender)
  else if (firstValue result.traits "wit$thanks").isSome then
    some (fbMessage sender (handlerThanks.get? (randomIndex draw handlerThanks.length)))
  else if (firstValue result.traits "wit$bye").isSome then
    some (fbMessage sender (handlerByes.get? (randomIndex draw handlerByes.length)))
  else none

/-- The text dispatcher of section 4.3 of the specification: rule groups
(a), (b), (c), (d) in that order, first match wins. -/
def specDispatch (env : Env) (draw : Nat) (sender text : String)
    (result : ClassifierResult) : List Effect :=
  if (firstValue result.traits "wit$greetings").isSome then
    helloPostback env draw sender
  else
    match List.lookup text (labelTable sender) with
    | some action => [.send action]
    | none =>
      match specTraitRules draw sender result with
      | some action => [.send action]
      | none =>
        [.send (fbMessage sender
          (some ("This is embarrassing but I cannot understand your text: " ++ text ++ ".")))]

/-- A classifier result whose only detection is the trait `wit_started`. -/
def startedResult : ClassifierResult :=
  { entities := some [], intents := some []
    traits := some [("wit_started", [{ value := .str "true" }])] }

/-- A classifier result whose only detection is the trait `wit$thanks`. -/
def thanksResult : ClassifierResult :=
  { entities := some [], intents := some []
    traits := some [("wit$thanks", [{ value := .str "true" }])] }

/-- A classifier result whose only detection is the trait `wit$bye`. -/
def byeResult : ClassifierResult :=
  { entities := some [], intents := some []
    traits := some [("wit$bye", [{ value := .str "true" }])] }

/-- A classifier result whose only detection is an agenda entry. -/
def storyResult : ClassifierResult :=
  { entities := some [("wit$agenda_entry:agenda_entry", [{ value := .str "it happened" }])]
    intents := some [], traits := some [] }

/-- A classifier result whose only detection is the trait `wit$greetings`. -/
def greetingResult : ClassifierResult :=
  { entities := some [], intents := some []
    traits := some [("wit$greetings", [{ value := .str "true" }])] }

/-- The scripted actions that offer quick replies: `getStartedReply`,
`sendAdvice`, `recommendStep`, the four numbered steps and the final step. -/
def scriptedActions (draw : Nat) (id greeting : String) : List OutboundAction :=
  [ getStartedReply id greeting, sendAdvice id, recommendStep draw id,
    recommendStepOne id, recommendStepTwo id, recommendStepThree id,
    recommendStepFour id, recommendFinalStep id ]

/-- Every quick-reply title a scripted action offers. -/
def scriptedTitles : List String :=
  (scriptedActions 0 "" "").flatMap OutboundAction.titles

/-- The actions the dispatcher sends, with an empty classifier result, when
the user answers `action` with the quick-reply title `title`. -/
def replyStep (env : Env) (draw : Nat) (action : OutboundAction) (title : String) :
    List OutboundAction :=
  sends (dispatch env draw action.recipient_id title emptyResult)

/-- The action an action steps to: the one the dispatcher picks for the title
of its first quick reply; `none` for an action without quick replies. -/
def firstReplyStep (env : Env) (draw : Nat) (action : OutboundAction) :
    Option OutboundAction :=
  match action.titles with
  | [] => none
  | title :: _ => (replyStep env draw action title).head?

/-- The walk of at most `n` steps that starts at `action`. -/
def walk (env : Env) (draw : Nat) : Nat → OutboundAction → List OutboundAction
  | 0, action => [action]
  | n + 1, action =>
    action ::
      match firstReplyStep env draw action with
      | none => []
      | some next => walk env draw n next

/-- The actions reached from `action` in one step through any of its quick
replies. -/
def anyReplySteps (env : Env) (draw : Nat) (action : OutboundAction) :
    List OutboundAction :=
  action.titles.flatMap (replyStep env draw action)

/-- Reachability in the script: `Reaches env draw a b` when `b` is obtained
from `a` by answering, any number of times, the action received with one of
its quick-reply titles (the first one, or any other). -/
inductive Reaches (env : Env) (draw : Nat) : OutboundAction → OutboundAction → Prop
  | refl (a : OutboundAction) : Reaches env draw a a
  | step (a b c : OutboundAction) :
      Reaches env draw a b → c ∈ anyReplySteps env draw b → Reaches env draw a c

/-! ### Facts about hexadecimal digests and `split` -/

theorem hexDigit_ne_eq (n : Nat) : hexDigit n ≠ '=' := by
  unfold hexDigit
  split <;> decide

theorem hexChars_no_eq (bs : List Nat) : '=' ∉ hexChars bs := by
  induction bs with
  | nil => simp [hexChars]
  | cons b bs ih =>
    simp only [hexChars, hexByte, List.mem_append, List.mem_cons, List.mem_singleton,
      List.not_mem_nil, or_false, not_or]
    exact ⟨⟨fun h => hexDigit_ne_eq _ h.symm, fun h => hexDigit_ne_eq _ h.symm⟩, ih⟩

theorem splitChars_ne_nil (sep : Char) (l : List Char) : splitChars sep l ≠ [] := by
  cases l with
  | nil => simp [splitChars]
  | cons c cs =>
    simp only [splitChars]
    split
    · simp
    · split <;> simp

/-- The first piece of a split is the text before the first separator. -/
theorem splitChars_head (sep : Char) (l : List Char) :
    (splitChars sep l).head? = some (l.takeWhile (fun c => decide (c ≠ sep))) := by
  induction l with
  | nil => simp [splitChars]
  | cons c cs ih =>
    simp only [splitChars]
    by_cases h : c = sep
    · simp [h]
    · simp only [h, if_false]
      cases hs : splitChars sep cs with
      | nil => exact absurd hs (splitChars_ne_nil sep cs)
      | cons seg segs =>
        rw [hs] at ih
        simp at ih
        simp [List.takeWhile, h, ih]

/-- Splitting a text whose prefix `m` is free of the separator. -/
theorem splitChars_append (sep : Char) (m r : List Char) (hm : sep ∉ m) :
    splitChars sep (m ++ sep :: r) = m :: splitChars sep r := by
  induction m with
  | nil => simp [splitChars]
  | cons c cs ih =>
    have hc : c ≠ sep := fun h => hm (by simp [h])
    have hcs : sep ∉ cs := fun h => hm (by simp [h])
    simp [splitChars, hc, ih hcs]

/-- A text without separator is a single piece. -/
theorem splitChars_no_sep (sep : Char) (m : List Char) (hm : sep ∉ m) :
    splitChars sep m = [m] := by
  induction m with
  | nil => simp [splitChars]
  | cons c cs ih =>
    have hc : c ≠ sep := fun h => hm (by simp [h])
    have hcs : sep ∉ cs := fun h => hm (by simp [h])
    simp [splitChars, hc, ih hcs]

/-- A check of `hmacSha1` against test case 2 of RFC 2202. -/
theorem hmacSha1_rfc2202_case2 :
    hexDigest (hmacSha1 "Jefe" (utf8Bytes "what do ya want for nothing?")) =
      "effcdf6ae5eb2fa2d27416d5f184df9c259a7c79" := by rfl

/-- The digest of the sample body under the secret `secret`. -/
theorem sampleDigest_eq :
    hexDigest (hmacSha1 "secret" sampleBody) =
      "14af6933c9dd2c52ef24f4d51f5fe8939167021a" := by rfl

/-- The JavaScript value `sig.split('=')[1]`: absent without a separator,
otherwise the text between the first separator and the next one. -/
theorem jsSplit_second_none (m : List Char) (hm : '=' ∉ m) :
    (jsSplit (String.mk m) '=').get? 1 = none := by
  simp [jsSplit, splitChars_no_sep '=' m hm]

theorem jsSplit_second_some (m r : List Char) (hm : '=' ∉ m) :
    (jsSplit (String.mk (m ++ '=' :: r)) '=').get? 1 =
      some (String.mk (r.takeWhile (fun c => decide (c ≠ '=')))) := by
  have h := splitChars_head '=' r
  simp only [jsSplit, splitChars_append '=' m r hm, List.map_cons, List.get?_cons_succ]
  cases hs : splitChars '=' r with
  | nil => exact absurd hs (splitChars_ne_nil '=' r)
  | cons seg segs =>
    rw [hs] at h
    simp at h
    simp [h]

theorem takeWhile_all (p : Char → Bool) (l : List Char) (h : ∀ c ∈ l, p c = true) :
    l.takeWhile p = l := by
  induction l with
  | nil => rfl
  | cons c cs ih =>
    have hc : p c = true := h c (by simp)
    simp [List.takeWhile, hc, ih (fun d hd => h d (by simp [hd]))]

theorem string_ne_empty_of_data (s : String) (c : Char) (cs : List Char)
    (h : s.data = c :: cs) : s ≠ "" := by
  intro hs
  rw [hs] at h
  simp at h

/-- C1: for every app secret and every request body, the header
`"sha1=" ++ hex(HMAC-SHA1(secret, body))` is accepted: `verifyRequestSignature`
returns without throwing. -/
theorem verifyRequestSignature_accepts_signed
    (secret : String) (buf : Buffer) :
    verifyRequestSignature secret
      (some ("sha1=" ++ hexDigest (hmacSha1 secret buf))) buf = .ok () := by
  have hdata : ("sha1=" ++ hexDigest (hmacSha1 secret buf)) =
      String.mk (['s', 'h', 'a', '1'] ++ '=' :: hexChars (hmacSha1 secret buf)) := by
    apply String.ext
    simp [hexDigest, String.data_append]
  have hne : ("sha1=" ++ hexDigest (hmacSha1 secret buf)) ≠ "" :=
    string_ne_empty_of_data _ 's' _ (by rw [hdata]; rfl)
  have hsnd := jsSplit_second_some ['s', 'h', 'a', '1'] (hexChars (hmacSha1 secret buf))
    (by decide)
  rw [takeWhile_all _ _ (fun c hc => by
    have := hexChars_no_eq (hmacSha1 secret buf)
    simp only [decide_eq_true_eq]
    intro h
    exact this (h ▸ hc))] at hsnd
  simp only [verifyRequestSignature, hne, if_false]
  rw [hdata, hsnd]
  simp [hexDigest]

/-! ### Single-character changes of the signature header -/

theorem splitChars_second_cons_sep (sep : Char) (xs : List Char) :
    (splitChars sep (sep :: xs)).get? 1 =
      some (xs.takeWhile (fun c => decide (c ≠ sep))) := by
  have h := splitChars_head sep xs
  simp only [splitChars, if_true, List.get?_cons_succ]
  cases hs : splitChars sep xs with
  | nil => exact absurd hs (splitChars_ne_nil sep xs)
  | cons seg segs =>
    rw [hs] at h
    simpa using h

theorem splitChars_second_cons_other (sep x : Char) (xs : List Char) (hx : x ≠ sep) :
    (splitChars sep (x :: xs)).get? 1 = (splitChars sep xs).get? 1 := by
  simp only [splitChars, hx, if_false]
  cases hs : splitChars sep xs with
  | nil => exact absurd hs (splitChars_ne_nil sep xs)
  | cons seg segs => simp

/-- Changing one character at or before the end of the leading separator-free
run changes that run. -/
theorem takeWhile_set_ne (sep : Char) :
    ∀ (l : List Char) (j : Nat) (c : Char), j < l.length → l[j]? ≠ some c →
      sep ∉ l.take j →
      (l.set j c).takeWhile (fun a => decide (a ≠ sep)) ≠
        l.takeWhile (fun a => decide (a ≠ sep))
  | [], j, c, hj, _, _ => by simp at hj
  | x :: xs, 0, c, _, hc, _ => by
    have hxc : x ≠ c := by
      intro h
      apply hc
      simp [h]
    by_cases hx : x = sep
    · have hcs : c ≠ sep := fun h => hxc (hx.trans h.symm)
      simp [List.takeWhile, hx, hcs]
    · by_cases hcs : c = sep
      · simp [List.takeWhile, hx, hcs]
      · simp [List.takeWhile, hx, hcs, Ne.symm hxc]
  | x :: xs, j + 1, c, hj, hc, hsep => by
    have hx : x ≠ sep := by
      intro h
      apply hsep
      simp [h]
    have hj2 : j < xs.length := by simpa using hj
    have hc2 : xs[j]? ≠ some c := by simpa using hc
    have hsep2 : sep ∉ xs.take j := by
      intro h
      apply hsep
      simp [h]
    have ih := takeWhile_set_ne sep xs j c hj2 hc2 hsep2
    simpa [List.takeWhile, hx] using ih

/-- The second piece of `split` changes under every single-character change
made inside it (or at the separator closing it), and under a change of the
only separator. -/
theorem splitChars_second_set_ne (sep : Char) :
    ∀ (l : List Char) (i : Nat) (c : Char), i < l.length → l[i]? ≠ some c →
      ((l.take i).count sep = 1 ∨ (l.count sep = 1 ∧ l[i]? = some sep)) →
      (splitChars sep (l.set i c)).get? 1 ≠ (splitChars sep l).get? 1
  | [], i, c, hi, _, _ => by simp at hi
  | x :: xs, 0, c, _, hc, hpos => by
    rcases hpos with h | ⟨hcount, hx⟩
    · simp at h
    · have hx2 : x = sep := by simpa using hx
      subst hx2
      have hcs : c ≠ x := by
        intro h
        apply hc
        simp [h]
      have hxs : x ∉ xs := by
        intro h
        have : 0 < xs.count x := List.count_pos_iff.mpr h
        simp at hcount
        omega
      have hnew : x ∉ c :: xs := by
        simp only [List.mem_cons, not_or]
        exact ⟨fun h => hcs h.symm, hxs⟩
      rw [List.set_cons_zero, splitChars_no_sep x _ hnew, splitChars_second_cons_sep]
      simp
  | x :: xs, i + 1, c, hi, hc, hpos => by
    have hi2 : i < xs.length := by simpa using hi
    have hc2 : xs[i]? ≠ some c := by simpa using hc
    by_cases hx : x = sep
    · subst hx
      rw [List.set_cons_succ, splitChars_second_cons_sep, splitChars_second_cons_sep]
      rcases hpos with h | ⟨hcount, hxi⟩
      · have hno : x ∉ xs.take i := by
          intro hmem
          have : 0 < (xs.take i).count x := List.count_pos_iff.mpr hmem
          simp at h
          omega
        intro heq
        exact takeWhile_set_ne x xs i c hi2 hc2 hno (by simpa using heq)
      · exfalso
        have hmem : x ∈ xs := by
          have : xs[i]? = some x := by simpa using hxi
          exact List.getElem?_mem this
        have : 0 < xs.count x := List.count_pos_iff.mpr hmem
        simp at hcount
        omega
    · rw [List.set_cons_succ, splitChars_second_cons_other sep x _ hx,
        splitChars_second_cons_other sep x _ hx]
      apply splitChars_second_set_ne sep xs i c hi2 hc2
      rcases hpos with h | ⟨hcount, hxi⟩
      · left
        simpa [List.count_cons, hx] using h
      · right
        refine ⟨?_, by simpa using hxi⟩
        simpa [List.count_cons, hx] using hcount

/-- What acceptance of a non-empty header means: the second piece of the
split header is the expected digest. -/
theorem verifyRequestSignature_ok_iff
    (secret sig : String) (buf : Buffer) (hsig : sig ≠ "") :
    verifyRequestSignature secret (some sig) buf = .ok () ↔
      (jsSplit sig '=').get? 1 = some (hexDigest (hmacSha1 secret buf)) := by
  simp only [verifyRequestSignature, hsig, if_false]
  by_cases h : (jsSplit sig '=').get? 1 = some (hexDigest (hmacSha1 secret buf))
  · simp [h]
  · simp [h]

/-- The algorithm name in front of the first `=` is never inspected: any
separator-free name followed by `=` and the expected digest is accepted. -/
theorem verifyRequestSignature_ignores_method
    (secret : String) (buf : Buffer)
    (method : List Char) (hm : '=' ∉ method) :
    verifyRequestSignature secret
      (some (String.mk (method ++ '=' :: hexChars (hmacSha1 secret buf)))) buf = .ok () := by
  have hne : String.mk (method ++ '=' :: hexChars (hmacSha1 secret buf)) ≠ "" := by
    intro h
    have := congrArg String.data h
    simp at this
  rw [verifyRequestSignature_ok_iff _ _ _ hne, jsSplit_second_some _ _ hm,
    takeWhile_all _ _ (fun c hc => by
      have := hexChars_no_eq (hmacSha1 secret buf)
      simp only [decide_eq_true_eq]
      intro h
      exact this (h ▸ hc))]
  rfl

/-- The signed header of the sample body is accepted. -/
theorem sampleSignature_accepted :
    verifyRequestSignature "secret" (some sampleSignature) sampleBody = .ok () :=
  (verifyRequestSignature_ok_iff "secret" sampleSignature sampleBody (by decide)).mpr
    (by rw [sampleDigest_eq]; decide)

/-- C2 (counterexample): the header `sha1=<digest>` of the sample body under
the secret `secret` is accepted, and so is the header obtained from it by
changing the single character `1` of the algorithm name into `2`. -/
theorem verifyRequestSignature_method_change_accepted :
    verifyRequestSignature "secret" (some sampleSignature) sampleBody = .ok () ∧
    String.mk (sampleSignature.data.set 3 '2') =
      "sha2=14af6933c9dd2c52ef24f4d51f5fe8939167021a" ∧
    verifyRequestSignature "secret"
      (some "sha2=14af6933c9dd2c52ef24f4d51f5fe8939167021a") sampleBody = .ok () :=
  ⟨sampleSignature_accepted, by decide,
    (verifyRequestSignature_ok_iff "secret" _ sampleBody (by decide)).mpr
      (by rw [sampleDigest_eq]; decide)⟩

/-- C2 (amended): for every secret, body and accepted header, every header
obtained by changing exactly one character of the digest part (a position
after the first `=` and not after a second one) or by changing the only `=`
of the header is rejected: `verifyRequestSignature` throws. -/
theorem verifyRequestSignature_rejects_digest_change
    (secret sig : String) (buf : Buffer)
    (i : Nat) (c : Char)
    (hacc : verifyRequestSignature secret (some sig) buf = .ok ())
    (hi : i < sig.data.length) (hc : sig.data[i]? ≠ some c)
    (hpos : (sig.data.take i).count '=' = 1 ∨
      (sig.data.count '=' = 1 ∧ sig.data[i]? = some '=')) :
    verifyRequestSignature secret (some (String.mk (sig.data.set i c))) buf =
      .error "Couldn't validate the request signature." := by
  have hsig : sig ≠ "" := by
    intro h
    rw [h] at hi
    simp at hi
  have hnew : String.mk (sig.data.set i c) ≠ "" := by
    intro h
    have hlen : (sig.data.set i c).length = 0 := congrArg (fun s => s.data.length) h
    rw [List.length_set] at hlen
    omega
  have hold := (verifyRequestSignature_ok_iff _ _ _ hsig).mp hacc
  have hne := splitChars_second_set_ne '=' sig.data i c hi hc hpos
  have hrej : (jsSplit (String.mk (sig.data.set i c)) '=').get? 1 ≠
      some (hexDigest (hmacSha1 secret buf)) := by
    intro h
    apply hne
    have hmap : ∀ l : List (List Char),
        (l.map String.mk).get? 1 = (l.get? 1).map String.mk := fun l => by simp
    simp only [jsSplit, hmap] at h hold
    cases h1 : (splitChars '=' (sig.data.set i c)).get? 1 with
    | none => rw [h1] at h; simp at h
    | some a =>
      cases h2 : (splitChars '=' sig.data).get? 1 with
      | none => rw [h2] at hold; simp at hold
      | some b =>
        rw [h1] at h
        rw [h2] at hold
        simp only [Option.map_some', Option.some.injEq] at h hold
        have : String.mk a = String.mk b := h.trans hold.symm
        exact congrArg some (congrArg String.data this)
  simp only [verifyRequestSignature, hnew, if_false, hrej, ne_eq, not_false_eq_true, if_true]

/-- Witness for C2 (amended): in the signed header of the sample body the
first digest character (position 5) is changed to `x`. -/
theorem verifyRequestSignature_rejects_digest_change_witness :
    verifyRequestSignature "secret"
      (some (String.mk (sampleSignature.data.set 5 'x'))) sampleBody =
      .error "Couldn't validate the request signature." :=
  verifyRequestSignature_rejects_digest_change "secret" sampleSignature sampleBody 5 'x'
    sampleSignature_accepted (by decide) (by decide) (by decide)

/-! ## Webhook subscription -/

/-- C4: for every query of `GET /webhook` the handler answers with the
`hub.challenge` value iff `hub.mode` is the string `subscribe` and
`hub.verify_token` is a string equal to the process-held verify token; in
every other case it answers with status 400, in particular when `hub.mode` or
`hub.verify_token` is missing and while the verify token has not been
generated. -/
theorem getWebhook_challenge_iff (FB_VERIFY_TOKEN : Option String) (query : Query) :
    (getWebhook FB_VERIFY_TOKEN query = .send query.hub_challenge ↔
      (query.hub_mode = .str "subscribe" ∧
        ∃ t, FB_VERIFY_TOKEN = some t ∧ query.hub_verify_token = .str t)) ∧
    (¬ (query.hub_mode = .str "subscribe" ∧
        ∃ t, FB_VERIFY_TOKEN = some t ∧ query.hub_verify_token = .str t) →
      getWebhook FB_VERIFY_TOKEN query = .sendStatus 400 ∧
      (getWebhook FB_VERIFY_TOKEN query).status = 400) ∧
    (query.hub_mode = .undefined → getWebhook FB_VERIFY_TOKEN query = .sendStatus 400) ∧
    (query.hub_verify_token = .undefined →
      getWebhook FB_VERIFY_TOKEN query = .sendStatus 400) ∧
    (FB_VERIFY_TOKEN = none → getWebhook FB_VERIFY_TOKEN query = .sendStatus 400) := by
  obtain ⟨mode, token, challenge⟩ := query
  cases mode <;> cases token <;> cases FB_VERIFY_TOKEN <;>
    try simp [getWebhook, QueryValue.strictEq, Reply.status]
  next m v t =>
    by_cases hm : m = "subscribe" <;> by_cases hv : v = t <;>
      simp [hm, hv, Reply.status]

/-! ## Session registry -/

theorem toISOString_ne_empty (now : Nat) : toISOString now ≠ "" := by
  intro h
  have hd := congrArg String.data h
  simp [toISOString] at hd

theorem Sessions.keys_set (sessions : Sessions) (k : String) (v : Session) :
    (sessions.set k v).keys =
      if k ∈ sessions.keys then sessions.keys else sessions.keys ++ [k] := by
  unfold Sessions.set
  by_cases h : k ∈ sessions.keys
  · simp only [h, if_true]
    simp only [Sessions.keys, List.map_map]
    apply List.map_congr_left
    intro e _
    by_cases he : e.1 = k <;> simp [he]
  · simp only [h, if_false]
    simp [Sessions.keys]

theorem Sessions.mem_keys_set (sessions : Sessions) (k : String) (v : Session) :
    k ∈ (sessions.set k v).keys := by
  rw [Sessions.keys_set]
  by_cases h : k ∈ sessions.keys <;> simp [h]

theorem Sessions.keys_set_subset (sessions : Sessions) (k k2 : String) (v : Session)
    (h : k2 ∈ (sessions.set k v).keys) : k2 ∈ sessions.keys ∨ k2 = k := by
  rw [Sessions.keys_set] at h
  by_cases hk : k ∈ sessions.keys
  · simp only [hk, if_true] at h
    exact Or.inl h
  · simpa [hk] using h

theorem lookup_cons_eq (k a : String) (b : Session) (l : List (String × Session)) :
    List.lookup k ((a, b) :: l) = if k = a then some b else List.lookup k l := by
  rw [List.lookup_cons]
  by_cases h : k = a
  · simp [h]
  · have hb : (k == a) = false := by simp [h]
    simp [h, hb]

theorem lookup_map_set (k k2 : String) (v : Session) :
    ∀ l : List (String × Session),
      List.lookup k2 (l.map (fun e => if e.1 = k then (k, v) else e)) =
        if k2 = k then (if k ∈ l.map Prod.fst then some v else none)
        else List.lookup k2 l
  | [] => by simp
  | (a, b) :: l => by
    have ih := lookup_map_set k k2 v l
    by_cases ha : a = k
    · subst ha
      simp only [List.map_cons, if_true, lookup_cons_eq, ih]
      by_cases hk2 : k2 = a <;> simp [hk2]
    · simp only [List.map_cons, ha, if_false, lookup_cons_eq, ih]
      by_cases hk2 : k2 = k
      · subst hk2
        have h1 : ¬ k2 = a := fun h => ha h.symm
        have h2 : k2 ∈ a :: List.map Prod.fst l ↔ k2 ∈ List.map Prod.fst l := by
          simp [h1]
        simp only [h1, if_false, if_true]
        exact if_congr h2.symm rfl rfl
      · simp [hk2]

theorem lookup_append_singleton (k k2 : String) (v : Session) :
    ∀ l : List (String × Session), k ∉ l.map Prod.fst →
      List.lookup k2 (l ++ [(k, v)]) =
        if k2 = k then some v else List.lookup k2 l
  | [], _ => by
    simp only [List.nil_append, lookup_cons_eq]
  | (a, b) :: l, hk => by
    have hak : ¬ k = a := fun h => hk (by simp [h])
    have hl : k ∉ l.map Prod.fst := fun h => hk (by simp at h ⊢; exact Or.inr h)
    have ih := lookup_append_singleton k k2 v l hl
    simp only [List.cons_append, lookup_cons_eq, ih]
    by_cases hka : k2 = a
    · subst hka
      have : ¬ k2 = k := fun h => hak h.symm
      simp [this]
    · simp [hka]

theorem Sessions.get_set_self (sessions : Sessions) (k : String) (v : Session) :
    (sessions.set k v).get k = some v := by
  unfold Sessions.set Sessions.get
  by_cases h : k ∈ sessions.keys
  · simp only [h, if_true]
    rw [lookup_map_set]
    simp only [Sessions.keys] at h
    simp [h]
  · simp only [h, if_false]
    rw [lookup_append_singleton k k v sessions h]
    simp

theorem Sessions.get_set_other (sessions : Sessions) (k k2 : String) (v : Session)
    (hk : k2 ≠ k) : (sessions.set k v).get k2 = sessions.get k2 := by
  unfold Sessions.set Sessions.get
  by_cases h : k ∈ sessions.keys
  · simp only [h, if_true]
    rw [lookup_map_set]
    simp [hk]
  · simp only [h, if_false]
    rw [lookup_append_singleton k k2 v sessions h]
    simp [hk]

theorem scanSessions_eq (sessions : Sessions) (fbid : String) :
    scanSessions sessions fbid = sessions.keys.foldl (scanStep sessions fbid) none := rfl

/-- The scan ends on its start value or on a visited key. -/
theorem scan_foldl_mem (sessions : Sessions) (fbid : String) :
    ∀ (l : List String) (acc : Option String) (k : String),
      l.foldl (scanStep sessions fbid) acc = some k → acc = some k ∨ k ∈ l
  | [], acc, k, h => Or.inl (by simpa using h)
  | x :: xs, acc, k, h => by
    simp only [List.foldl_cons] at h
    rcases scan_foldl_mem sessions fbid xs _ k h with h1 | h1
    · unfold scanStep at h1
      split at h1
      · split at h1
        · right
          simp only [Option.some.injEq] at h1
          simp [h1]
        · exact Or.inl h1
      · exact Or.inl h1
    · right
      simp [h1]

/-- The scan keeps its start value when no visited key belongs to the user. -/
theorem scan_foldl_no_match (sessions : Sessions) (fbid : String) :
    ∀ (l : List String) (acc : Option String),
      (∀ k ∈ l, ∀ e, sessions.get k = some e → e.fbid ≠ fbid) →
      l.foldl (scanStep sessions fbid) acc = acc
  | [], _, _ => rfl
  | x :: xs, acc, h => by
    have hx : scanStep sessions fbid acc x = acc := by
      unfold scanStep
      split
      · next e he =>
        have := h x (by simp) e he
        simp [this]
      · rfl
    simp only [List.foldl_cons, hx]
    exact scan_foldl_no_match sessions fbid xs acc (fun k hk => h k (by simp [hk]))

/-- A scan that ends on `undefined` met no key of the user. -/
theorem scan_foldl_none (sessions : Sessions) (fbid : String) :
    ∀ (l : List String) (acc : Option String),
      l.foldl (scanStep sessions fbid) acc = none →
      ∀ k ∈ l, ∀ e, sessions.get k = some e → e.fbid ≠ fbid
  | [], _, _ => by simp
  | x :: xs, acc, h => by
    simp only [List.foldl_cons] at h
    intro k hk e he hfb
    rcases List.mem_cons.mp hk with hkx | hkx
    · subst hkx
      have hstep : scanStep sessions fbid acc k = some k := by
        simp [scanStep, he, hfb]
      rw [hstep] at h
      by_cases hall : ∀ k2 ∈ xs, ∀ e2, sessions.get k2 = some e2 → e2.fbid ≠ fbid
      · rw [scan_foldl_no_match sessions fbid xs _ hall] at h
        simp at h
      · exact hall (scan_foldl_none sessions fbid xs _ h) |>.elim
    · exact scan_foldl_none sessions fbid xs _ h k hkx e he hfb

/-- When every key of the user that the scan visits is `t`, and `t` is
visited, the scan ends on `t`. -/
theorem scan_foldl_unique (sessions : Sessions) (fbid t : String) :
    ∀ (l : List String) (acc : Option String),
      (∀ k ∈ l, ∀ e, sessions.get k = some e → e.fbid = fbid → k = t) →
      (acc = some t ∨ ∃ k ∈ l, ∃ e, sessions.get k = some e ∧ e.fbid = fbid) →
      l.foldl (scanStep sessions fbid) acc = some t
  | [], acc, _, h => by
    rcases h with h | ⟨k, hk, _⟩
    · simpa using h
    · simp at hk
  | x :: xs, acc, hall, h => by
    simp only [List.foldl_cons]
    apply scan_foldl_unique sessions fbid t xs _ (fun k hk => hall k (by simp [hk]))
    by_cases hx : ∃ e, sessions.get x = some e ∧ e.fbid = fbid
    · obtain ⟨e, he, hfb⟩ := hx
      have hxt : x = t := hall x (by simp) e he hfb
      left
      subst hxt
      simp [scanStep, he, hfb]
    · have hstep : scanStep sessions fbid acc x = acc := by
        unfold scanStep
        split
        · next e he =>
          have : ¬ e.fbid = fbid := fun hfb => hx ⟨e, he, hfb⟩
          simp [this]
        · rfl
      rw [hstep]
      rcases h with h | ⟨k, hk, e, he, hfb⟩
      · exact Or.inl h
      · rcases List.mem_cons.mp hk with hkx | hkx
        · subst hkx
          exact absurd ⟨e, he, hfb⟩ hx
        · exact Or.inr ⟨k, hkx, e, he, hfb⟩

/-- After a session is created under key `t` for a user who had none, the
scan for that user ends on `t`. -/
theorem scanSessions_after_create (sessions : Sessions) (fbid t : String)
    (hnone : ∀ k ∈ sessions.keys, ∀ e, sessions.get k = some e → e.fbid ≠ fbid) :
    scanSessions (sessions.set t { fbid := fbid, context := [] }) fbid = some t := by
  rw [scanSessions_eq]
  apply scan_foldl_unique
  · intro k hk e he hfb
    by_contra hkt
    rw [Sessions.get_set_other _ _ _ _ hkt] at he
    rcases Sessions.keys_set_subset _ _ _ _ hk with h | h
    · exact hnone k h e he hfb
    · exact hkt h
  · right
    exact ⟨t, Sessions.mem_keys_set _ _ _, _, Sessions.get_set_self _ _ _, rfl⟩

/-- Every key of a reachable registry is a non-empty string. -/
theorem Sessions.Reachable.keys_ne_empty {sessions : Sessions}
    (h : Sessions.Reachable sessions) : ∀ k ∈ sessions.keys, k ≠ "" := by
  induction h with
  | empty => simp [Sessions.keys]
  | step s fbid now _ ih =>
    intro k hk
    unfold findOrCreateSession at hk
    split at hk
    · split at hk
      · rcases Sessions.keys_set_subset _ _ _ _ hk with h | h
        · exact ih k h
        · rw [h]; exact toISOString_ne_empty now
      · exact ih k hk
    · rcases Sessions.keys_set_subset _ _ _ _ hk with h | h
      · exact ih k h
      · rw [h]; exact toISOString_ne_empty now

/-- C5: for every registry state (its keys non-empty strings, as in every
state the program reaches), every user id and every pair of clock readings,
two calls of `findOrCreateSession` in a row with the same user id return the
same session id, and the second call leaves the registry unchanged. -/
theorem findOrCreateSession_twice_same (sessions : Sessions) (fbid : String)
    (now1 now2 : Nat) (hkeys : ∀ k ∈ sessions.keys, k ≠ "") :
    (findOrCreateSession (findOrCreateSession sessions fbid now1).2 fbid now2).1 =
      (findOrCreateSession sessions fbid now1).1 ∧
    (findOrCreateSession (findOrCreateSession sessions fbid now1).2 fbid now2).2 =
      (findOrCreateSession sessions fbid now1).2 := by
  have hT := toISOString_ne_empty now1
  cases hscan : scanSessions sessions fbid with
  | none =>
    have hnone := scan_foldl_none sessions fbid sessions.keys none hscan
    have h2 := scanSessions_after_create sessions fbid (toISOString now1) hnone
    simp [findOrCreateSession, hscan, h2, hT]
  | some k =>
    have hk : k ≠ "" := by
      rcases scan_foldl_mem sessions fbid sessions.keys none k hscan with h | h
      · simp at h
      · exact hkeys k h
    simp [findOrCreateSession, hscan, hk]

/-- Witness for C5: the empty registry, user `U1`, clock readings 0 and 1. -/
theorem findOrCreateSession_twice_same_witness :
    (findOrCreateSession (findOrCreateSession [] "U1" 0).2 "U1" 1).1 =
      (findOrCreateSession [] "U1" 0).1 ∧
    (findOrCreateSession (findOrCreateSession [] "U1" 0).2 "U1" 1).2 =
      (findOrCreateSession [] "U1" 0).2 :=
  findOrCreateSession_twice_same [] "U1" 0 1 (by simp [Sessions.keys])

/-- C6 (failing input): from the empty registry, `findOrCreateSession` for
user `A` and then for user `B` at the same clock reading returns the same
session id twice, and afterwards the registry holds a single entry, for `B`:
the session of `A` is gone. -/
theorem findOrCreateSession_same_clock_collision :
    (findOrCreateSession [] "A" 1730851200123).1 = "2024-11-06T00:00:00.123Z" ∧
    findOrCreateSession (findOrCreateSession [] "A" 1730851200123).2 "B" 1730851200123 =
      ("2024-11-06T00:00:00.123Z",
        [("2024-11-06T00:00:00.123Z", { fbid := "B", context := [] })]) ∧
    (findOrCreateSession (findOrCreateSession [] "A" 1730851200123).2 "B"
      1730851200123).2.ofUser "A" = [] := by
  refine ⟨by decide, by decide, by decide⟩

/-! ## Authentication of `POST /webhook` -/

/-- C7: for every non-echo message event that carries attachments, whatever
its text and whatever the classifier and the profile service would answer,
the handler sends exactly the fixed attachment reply to the sender and makes
no classifier call. -/
theorem handleEvent_attachment_short_circuit (env : Env) (draw : Nat) (sender : String)
    (text : Option String) (attachments : List Attachment) (postback : Option Postback) :
    handleEvent env draw
        { sender := some { id := sender }
          message := some { is_echo := false, text := text, attachments := some attachments }
          postback := postback } =
      .ok [.send (fbMessage sender
        (some "Thank you for always keeping in touch but I do not understand."))] ∧
    sends [.send (fbMessage sender
        (some "Thank you for always keeping in touch but I do not understand."))] =
      [{ recipient_id := sender, messaging_type := none,
         text := some "Thank you for always keeping in touch but I do not understand.",
         quick_replies := none }] ∧
    classified [.send (fbMessage sender
        (some "Thank you for always keeping in touch but I do not understand."))] = [] := by
  refine ⟨rfl, rfl, rfl⟩

/-- C8: for every sender id and every classifier result without a greeting
trait, each of the texts `step`, `ok`, `sure`, `Yeah, Sure` and `Nah` makes
the handler send one and the same single action: recipient equal to the
sender id, text equal to the step-one paragraph, and exactly the two quick
replies titled `Go on` and `Maybe Later`, in that order. -/
theorem handleEvent_step_one_texts (env : Env) (draw : Nat) (sender text : String)
    (result : ClassifierResult) (postback : Option Postback)
    (htext : text ∈ ["step", "ok", "sure", "Yeah, Sure", "Nah"])
    (hwit : env.witMessage text = .ok result)
    (hgreet : firstValue result.traits "wit$greetings" = none) :
    handleEvent env draw
        { sender := some { id := sender }
          message := some { is_echo := false, text := some text, attachments := none }
          postback := postback } =
      .ok [.witMessage text, .send (recommendStepOne sender)] ∧
    sends [.witMessage text, .send (recommendStepOne sender)] =
      [recommendStepOne sender] ∧
    (recommendStepOne sender).recipient_id = sender ∧
    (recommendStepOne sender).text = responses.step_one.head? ∧
    (recommendStepOne sender).text.isSome = true ∧
    (recommendStepOne sender).titles = ["Go on", "Maybe Later"] := by
  refine ⟨?_, rfl, rfl, rfl, rfl, rfl⟩
  simp only [List.mem_cons, List.mem_singleton, List.not_mem_nil, or_false] at htext
  rcases htext with h | h | h | h | h <;> subst h <;>
    simp [handleEvent, handleMessage, hwit, dispatch, hgreet]

/-- Witness for C8: the text `step` from user `U1` under the sample
environment. -/
theorem handleEvent_step_one_texts_witness :
    handleEvent sampleEnv 0
        { sender := some { id := "U1" }
          message := some { is_echo := false, text := some "step", attachments := none }
          postback := none } =
      .ok [.witMessage "step", .send (recommendStepOne "U1")] ∧
    sends [.witMessage "step", .send (recommendStepOne "U1")] =
      [recommendStepOne "U1"] ∧
    (recommendStepOne "U1").recipient_id = "U1" ∧
    (recommendStepOne "U1").text = responses.step_one.head? ∧
    (recommendStepOne "U1").text.isSome = true ∧
    (recommendStepOne "U1").titles = ["Go on", "Maybe Later"] :=
  handleEvent_step_one_texts sampleEnv 0 "U1" "step"
    { entities := some [], intents := some [], traits := some [] } none
    (by decide) rfl rfl

/-- C9: for every sender id and every first name the profile lookup returns,
a postback event with payload `Greeting` makes the handler send one action
addressed to the sender whose text is `Hi <first name>!` followed by the
welcome paragraph, with exactly the three quick replies `Yes, recently`,
`Yes, long ago` and `No`, in that order; no classifier call is made. -/
theorem handleEvent_greeting_postback (env : Env) (draw : Nat) (sender name : String)
    (hprofile : env.fetchProfile sender =
      .ok { error_message := none, first_name := some name }) :
    handleEvent env draw
        { sender := some { id := sender }
          message := none
          postback := some { payload := some "Greeting" } } =
      .ok [.fetchProfile sender,
        .send (getStartedReply sender ("Hi " ++ name ++ "!"))] ∧
    sends [.fetchProfile sender,
        .send (getStartedReply sender ("Hi " ++ name ++ "!"))] =
      [getStartedReply sender ("Hi " ++ name ++ "!")] ∧
    classified [.fetchProfile sender,
        .send (getStartedReply sender ("Hi " ++ name ++ "!"))] = [] ∧
    (getStartedReply sender ("Hi " ++ name ++ "!")).recipient_id = sender ∧
    (getStartedReply sender ("Hi " ++ name ++ "!")).text =
      some ("Hi " ++ name ++ "!" ++ welcomeText) ∧
    (getStartedReply sender ("Hi " ++ name ++ "!")).titles =
      ["Yes, recently", "Yes, long ago", "No"] := by
  refine ⟨?_, rfl, rfl, rfl, rfl, rfl⟩
  simp [handleEvent, handlePostback, getStartedPostback, hprofile, truthyString, jsToString]

/-- Witness for C9: user `U2` whose profile answers the first name `Ana`. -/
theorem handleEvent_greeting_postback_witness :
    handleEvent sampleEnv 0
        { sender := some { id := "U2" }
          message := none
          postback := some { payload := some "Greeting" } } =
      .ok [.fetchProfile "U2",
        .send (getStartedReply "U2" ("Hi " ++ "Ana" ++ "!"))] ∧
    sends [.fetchProfile "U2",
        .send (getStartedReply "U2" ("Hi " ++ "Ana" ++ "!"))] =
      [getStartedReply "U2" ("Hi " ++ "Ana" ++ "!")] ∧
    classified [.fetchProfile "U2",
        .send (getStartedReply "U2" ("Hi " ++ "Ana" ++ "!"))] = [] ∧
    (getStartedReply "U2" ("Hi " ++ "Ana" ++ "!")).recipient_id = "U2" ∧
    (getStartedReply "U2" ("Hi " ++ "Ana" ++ "!")).text =
      some ("Hi " ++ "Ana" ++ "!" ++ welcomeText) ∧
    (getStartedReply "U2" ("Hi " ++ "Ana" ++ "!")).titles =
      ["Yes, recently", "Yes, long ago", "No"] :=
  handleEvent_greeting_postback sampleEnv 0 "U2" "Ana" rfl

/-- C10 (counterexample): for the empty text, which equals none of the
exact-match labels, with a classifier that finds nothing, the handler sends
nothing at all: no fallback reply, and no classifier call either. -/
theorem handleEvent_empty_text_silent :
    "" ∉ exactLabels ∧
    handleEvent sampleEnv 0
        { sender := some { id := "U1" }
          message := some { is_echo := false, text := some "", attachments := none }
          postback := none } = .ok [] := by
  refine ⟨by decide, rfl⟩

/-- C10 (amended): for every non-empty text that equals none of the
exact-match labels, and every classifier result that yields none of the
consulted traits or entities (greetings, started, datetime, agenda entry,
thanks, bye), the handler sends exactly one action: the fallback reply to the
sender, whose text contains the input text verbatim. -/
theorem handleEvent_fallback (env : Env) (draw : Nat) (sender text : String)
    (result : ClassifierResult) (postback : Option Postback)
    (hne : text ≠ "") (hlabel : text ∉ exactLabels)
    (hwit : env.witMessage text = .ok result)
    (hgreet : firstValue result.traits "wit$greetings" = none)
    (hstarted : firstValue result.traits "wit_started" = none)
    (hdate : firstValue result.entities "wit$datetime:datetime" = none)
    (hstory : firstValue result.entities "wit$agenda_entry:agenda_entry" = none)
    (hthanks : firstValue result.traits "wit$thanks" = none)
    (hbye : firstValue result.traits "wit$bye" = none) :
    handleEvent env draw
        { sender := some { id := sender }
          message := some { is_echo := false, text := some text, attachments := none }
          postback := postback } =
      .ok [.witMessage text,
        .send { recipient_id := sender, messaging_type := none,
                text := some ("This is embarrassing but I cannot understand your text: " ++
                  text ++ "."),
                quick_replies := none }] ∧
    sends [.witMessage text,
        .send { recipient_id := sender, messaging_type := none,
                text := some ("This is embarrassing but I cannot understand your text: " ++
                  text ++ "."),
                quick_replies := none }] =
      [{ recipient_id := sender, messaging_type := none,
         text := some ("This is embarrassing but I cannot understand your text: " ++
           text ++ "."),
         quick_replies := none }] := by
  refine ⟨?_, rfl⟩
  simp only [exactLabels, List.mem_cons, List.mem_singleton, List.not_mem_nil, or_false,
    not_or] at hlabel
  obtain ⟨h1, h2, h3, h4, h5, h6, h7, h8, h9, h10, h11, h12, h13, h14, h15, h16, h17,
    h18, h19, h20, h21⟩ := hlabel
  simp [handleEvent, handleMessage, hne, hwit, dispatch, hgreet, hstarted, hdate, hstory,
    hthanks, hbye, h1, h2, h3, h4, h5, h6, h7, h8, h9, h10, h11, h12, h13, h14, h15, h16,
    h17, h18, h19, h20, h21, fbMessage]

/-- Witness for C10 (amended): the text `hmm` from user `U1` under the sample
environment. -/
theorem handleEvent_fallback_witness :
    handleEvent sampleEnv 0
        { sender := some { id := "U1" }
          message := some { is_echo := false, text := some "hmm", attachments := none }
          postback := none } =
      .ok [.witMessage "hmm",
        .send { recipient_id := "U1", messaging_type := none,
                text := some ("This is embarrassing but I cannot understand your text: " ++
                  "hmm" ++ "."),
                quick_replies := none }] ∧
    sends [.witMessage "hmm",
        .send { recipient_id := "U1", messaging_type := none,
                text := some ("This is embarrassing but I cannot understand your text: " ++
                  "hmm" ++ "."),
                quick_replies := none }] =
      [{ recipient_id := "U1", messaging_type := none,
         text := some ("This is embarrassing but I cannot understand your text: " ++
           "hmm" ++ "."),
         quick_replies := none }] :=
  handleEvent_fallback sampleEnv 0 "U1" "hmm"
    { entities := some [], intents := some [], traits := some [] } none
    (by decide) (by decide) rfl rfl rfl rfl rfl rfl rfl

/-! ## Classifier failures -/

/-- C11 (counterexample): for the text `step`, an exact-match label, a failed
classifier call makes the handler send nothing, whereas an empty classifier
result makes it send the step-one action. -/
theorem handleEvent_classifier_failure_step :
    "step" ∈ exactLabels ∧
    handleEvent failingEnv 0
        { sender := some { id := "U1" }
          message := some { is_echo := false, text := some "step", attachments := none }
          postback := none } = .ok [.witMessage "step"] ∧
    sends [.witMessage "step"] = [] ∧
    sampleEnv.witMessage "step" = .ok emptyResult ∧
    handleEvent sampleEnv 0
        { sender := some { id := "U1" }
          message := some { is_echo := false, text := some "step", attachments := none }
          postback := none } = .ok [.witMessage "step", .send (recommendStepOne "U1")] := by
  refine ⟨by decide, rfl, rfl, rfl, rfl⟩

/-- C11 (amended): when the classifier call fails for a text message, the
handler sends nothing for it: for every sender and every non-empty text,
exact-match label or not, the only network call is the failed classifier
call, and neither an exact-text action nor the fallback reply is sent. -/
theorem handleEvent_classifier_failure_silent (env : Env) (draw : Nat)
    (sender text err : String) (postback : Option Postback)
    (hne : text ≠ "") (hfail : env.witMessage text = .error err) :
    handleEvent env draw
        { sender := some { id := sender }
          message := some { is_echo := false, text := some text, attachments := none }
          postback := postback } = .ok [.witMessage text] ∧
    sends [.witMessage text] = [] := by
  refine ⟨?_, rfl⟩
  simp [handleEvent, handleMessage, hne, hfail]

/-- Witness for C11 (amended): the text `step` from user `U1` with a failing
classifier. -/
theorem handleEvent_classifier_failure_silent_witness :
    handleEvent failingEnv 0
        { sender := some { id := "U1" }
          message := some { is_echo := false, text := some "step", attachments := none }
          postback := none } = .ok [.witMessage "step"] ∧
    sends [.witMessage "step"] = [] :=
  handleEvent_classifier_failure_silent failingEnv 0 "U1" "step"
    "Error: Wit responded with status: 500" none (by decide) rfl

/-! ## The dispatcher and the rule groups of the specification -/

theorem lookup_cons_ite {β : Type} (k a : String) (b : β) (l : List (String × β)) :
    List.lookup k ((a, b) :: l) = if k = a then some b else List.lookup k l := by
  rw [List.lookup_cons]
  by_cases h : k = a
  · simp [h]
  · have hb : (k == a) = false := by simp [h]
    simp [h, hb]

/-- A text outside the exact-match labels has no entry in the label table. -/
theorem labelTable_lookup_none (sender text : String) (h : text ∉ exactLabels) :
    List.lookup text (labelTable sender) = none := by
  simp only [exactLabels, List.mem_cons, List.mem_singleton, List.not_mem_nil, or_false,
    not_or] at h
  obtain ⟨h1, h2, h3, h4, h5, h6, h7, h8, h9, h10, h11, h12, h13, h14, h15, h16, h17,
    h18, h19, h20, h21⟩ := h
  simp [labelTable, lookup_cons_ite, h1, h2, h3, h4, h5, h6, h7, h8, h9, h10, h11, h12, h13,
    h14, h15, h16, h17, h18, h19, h20, h21]

/-- Outside the exact-match labels `dispatch` is the rule groups (a), (c),
(d) of the specification. -/
theorem dispatch_eq_specDispatch_of_not_label (env : Env) (draw : Nat)
    (sender text : String) (result : ClassifierResult) (h : text ∉ exactLabels) :
    dispatch env draw sender text result = specDispatch env draw sender text result := by
  have hl := labelTable_lookup_none sender text h
  simp only [exactLabels, List.mem_cons, List.mem_singleton, List.not_mem_nil, or_false,
    not_or] at h
  obtain ⟨h1, h2, h3, h4, h5, h6, h7, h8, h9, h10, h11, h12, h13, h14, h15, h16, h17,
    h18, h19, h20, h21⟩ := h
  simp only [dispatch, specDispatch, hl, specTraitRules, h1, h2, h3, h4, h5, h6, h7, h8, h9,
    h10, h11, h12, h13, h14, h15, h16, h17, h18, h19, h20, h21, or_self, if_false, false_or,
    or_false]
  by_cases hg : (firstValue result.traits "wit$greetings").isSome = true
  · simp [hg]
  · by_cases hs : (firstValue result.traits "wit_started").isSome = true
    · simp [hg, hs]
    · by_cases hd : (firstValue result.entities "wit$datetime:datetime").isSome = true
      · simp [hg, hs, hd]
      · by_cases hy :
            (firstValue result.entities "wit$agenda_entry:agenda_entry").isSome = true
        · simp [hg, hs, hd, hy]
        · by_cases ht : (firstValue result.traits "wit$thanks").isSome = true
          · simp [hg, hs, hd, hy, ht]
          · by_cases hb : (firstValue result.traits "wit$bye").isSome = true
            · simp [hg, hs, hd, hy, ht, hb]
            · simp [hg, hs, hd, hy, ht, hb]

/-- On an exact-match label, without greeting trait and (for the label
`More than 6 months`) without started trait, `dispatch` sends the action of
the label table. -/
theorem dispatch_label (env : Env) (draw : Nat) (sender text : String)
    (result : ClassifierResult) (hlabel : text ∈ exactLabels)
    (hg : firstValue result.traits "wit$greetings" = none)
    (hs : text = "More than 6 months" → firstValue result.traits "wit_started" = none) :
    ∃ action, List.lookup text (labelTable sender) = some action ∧
      dispatch env draw sender text result = [.send action] := by
  simp only [exactLabels, List.mem_cons, List.mem_singleton, List.not_mem_nil,
    or_false] at hlabel
  rcases hlabel with h | h | h | h | h | h | h | h | h | h | h | h | h | h | h | h | h |
    h | h | h | h <;> subst h <;>
    first
      | (have hs2 := hs rfl
         simp [dispatch, labelTable, lookup_cons_ite, hg, hs2])
      | simp [dispatch, labelTable, lookup_cons_ite, hg]

/-- C12 (counterexample): the text `More than 6 months` is an exact-match
label, and neither the empty classifier result nor the one that detects only
`wit_started` has a greeting trait; yet the dispatcher sends the advice for
the first and the `When did this occur:` prompt for the second, where the
rule groups of the specification would send the advice both times. -/
theorem dispatch_label_depends_on_started :
    "More than 6 months" ∈ exactLabels ∧
    firstValue emptyResult.traits "wit$greetings" = none ∧
    firstValue startedResult.traits "wit$greetings" = none ∧
    dispatch sampleEnv 0 "U1" "More than 6 months" emptyResult = [.send (sendAdvice "U1")] ∧
    dispatch sampleEnv 0 "U1" "More than 6 months" startedResult =
      [.send (whenMessage "U1")] ∧
    specDispatch sampleEnv 0 "U1" "More than 6 months" startedResult =
      [.send (sendAdvice "U1")] ∧
    dispatch sampleEnv 0 "U1" "More than 6 months" emptyResult ≠
      dispatch sampleEnv 0 "U1" "More than 6 months" startedResult := by
  refine ⟨by decide, by decide, by decide, by rfl, by rfl, by rfl, by decide⟩

/-- C12 (amended): for every text that equals an exact-match label and every
two classifier results without a greeting trait (and, when the label is
`More than 6 months`, without a started trait, which the source tests before
that label), the action chosen is the same for both results, and it is the
action that the first-match-wins evaluation of the rule groups (a) greeting,
(b) label table, (c) other traits and entities, (d) fallback chooses. -/
theorem dispatch_label_first_match (env : Env) (draw : Nat) (sender text : String)
    (r1 r2 : ClassifierResult) (hlabel : text ∈ exactLabels)
    (hg1 : firstValue r1.traits "wit$greetings" = none)
    (hg2 : firstValue r2.traits "wit$greetings" = none)
    (hs : text = "More than 6 months" →
      firstValue r1.traits "wit_started" = none ∧
      firstValue r2.traits "wit_started" = none) :
    dispatch env draw sender text r1 = dispatch env draw sender text r2 ∧
    dispatch env draw sender text r1 = specDispatch env draw sender text r1 ∧
    dispatch env draw sender text r2 = specDispatch env draw sender text r2 := by
  obtain ⟨a1, hl1, hd1⟩ :=
    dispatch_label env draw sender text r1 hlabel hg1 (fun h => (hs h).1)
  obtain ⟨a2, hl2, hd2⟩ :=
    dispatch_label env draw sender text r2 hlabel hg2 (fun h => (hs h).2)
  have ha : a1 = a2 := Option.some.inj (hl1.symm.trans hl2)
  refine ⟨by rw [hd1, hd2, ha], ?_, ?_⟩
  · simp [specDispatch, hg1, hl1, hd1]
  · simp [specDispatch, hg2, hl2, hd2]

/-- Witness for C12 (amended): the label `step` with the empty classifier
result and with the one that detects `wit_started`. -/
theorem dispatch_label_first_match_witness :
    dispatch sampleEnv 0 "U1" "step" emptyResult =
      dispatch sampleEnv 0 "U1" "step" startedResult ∧
    dispatch sampleEnv 0 "U1" "step" emptyResult =
      specDispatch sampleEnv 0 "U1" "step" emptyResult ∧
    dispatch sampleEnv 0 "U1" "step" startedResult =
      specDispatch sampleEnv 0 "U1" "step" startedResult :=
  dispatch_label_first_match sampleEnv 0 "U1" "step" emptyResult startedResult
    (by decide) (by decide) (by decide) (fun h => absurd h (by decide))

/-! ## Randomised replies -/

/-- For a draw below `2^53` the index computed for a list of three candidates
is 0, 1 or 2. -/
theorem randomIndex_three_lt (draw : Nat) (hdraw : draw < 2 ^ 53) :
    randomIndex draw 3 < 3 := by
  unfold randomIndex roundTo53
  by_cases hp : draw * 3 < 2 ^ 53
  · simp only [hp, if_true]
    omega
  · simp only [hp, if_false]
    have hpos : draw * 3 ≠ 0 := by omega
    have hlo : 53 ≤ Nat.log2 (draw * 3) := (Nat.le_log2 hpos).mpr (by omega)
    have hhi : Nat.log2 (draw * 3) < 55 := (Nat.log2_lt hpos).mpr (by omega)
    have hcases : Nat.log2 (draw * 3) = 53 ∨ Nat.log2 (draw * 3) = 54 := by omega
    rcases hcases with h | h
    · rw [h]
      norm_num
      split <;> omega
    · rw [h]
      norm_num
      split <;> omega

/-- An index below three selects a member of a list of three candidates. -/
theorem get?_of_lt_three (a b c : String) (i : Nat) (hi : i < 3) :
    ∃ t, t ∈ [a, b, c] ∧ [a, b, c].get? i = some t := by
  interval_cases i
  · exact ⟨a, by simp, rfl⟩
  · exact ⟨b, by simp, rfl⟩
  · exact ⟨c, by simp, rfl⟩

/-- C13: for every random draw `r = draw / 2^53` with `0 ≤ r < 1`, the
computed index is within each candidate list, and the randomised replies are
members of their lists: the thanks reply is an element of `responses.thanks`,
the bye reply an element of `responses.byes`, the recommend-step text an
element of `responses.feelings`, and the greeting reply is one of `Hey `,
`Hello `, `Hi ` followed by the first name and `!`. -/
theorem random_replies_are_candidates (env : Env) (draw : Nat) (sender name : String)
    (hdraw : draw < 2 ^ 53)
    (hprofile : env.fetchProfile sender =
      .ok { error_message := none, first_name := some name }) :
    randomIndex draw handlerThanks.length < handlerThanks.length ∧
    randomIndex draw handlerByes.length < handlerByes.length ∧
    randomIndex draw responses.feelings.length < responses.feelings.length ∧
    randomIndex draw helloGreetings.length < helloGreetings.length ∧
    (∃ t, t ∈ handlerThanks ∧
      dispatch env draw sender "thank you" thanksResult =
        [.send (fbMessage sender (some t))]) ∧
    (∃ t, t ∈ handlerByes ∧
      dispatch env draw sender "see you" byeResult =
        [.send (fbMessage sender (some t))]) ∧
    (∃ t, t ∈ responses.feelings ∧ (recommendStep draw sender).text = some t ∧
      dispatch env draw sender "it happened" storyResult =
        [.send (recommendStep draw sender)]) ∧
    (∃ g, g ∈ ["Hey ", "Hello ", "Hi "] ∧
      dispatch env draw sender "hello" greetingResult =
        [.fetchProfile sender, .send (fbMessage sender (some (g ++ name ++ "!")))]) := by
  have hi := randomIndex_three_lt draw hdraw
  refine ⟨hi, hi, hi, hi, ?_, ?_, ?_, ?_⟩
  · obtain ⟨t, ht, hget⟩ :=
      get?_of_lt_three "You are welcome" "Welcome" "Glad I could help" _ hi
    refine ⟨t, ht, ?_⟩
    have hget2 : handlerThanks.get? (randomIndex draw handlerThanks.length) = some t := hget
    simp only [dispatch, hget2]
    rfl
  · obtain ⟨t, ht, hget⟩ := get?_of_lt_three "Bye bye" "Goodbye" "Bye" _ hi
    refine ⟨t, ht, ?_⟩
    have hget2 : handlerByes.get? (randomIndex draw handlerByes.length) = some t := hget
    simp only [dispatch, hget2]
    rfl
  · have hlen : responses.feelings.length = 3 := rfl
    have hmem : ∃ t, t ∈ responses.feelings ∧
        responses.feelings.get? (randomIndex draw responses.feelings.length) = some t := by
      rw [hlen]
      exact get?_of_lt_three _ _ _ _ hi
    obtain ⟨t, ht, hget⟩ := hmem
    exact ⟨t, ht, hget, rfl⟩
  · obtain ⟨g, hg, hget⟩ := get?_of_lt_three "Hey " "Hello " "Hi " _ hi
    refine ⟨g, hg, ?_⟩
    have hget2 : helloGreetings.get? (randomIndex draw helloGreetings.length) = some g := hget
    have hd : dispatch env draw sender "hello" greetingResult =
        helloPostback env draw sender := rfl
    rw [hd]
    rw [List.get?_eq_getElem?] at hget2
    simp [helloPostback, hprofile, truthyString, hget2, jsToString, String.append_assoc]

/-- Witness for C13: the largest draw, `2^53 - 1`, for user `U1` whose profile
answers the first name `Ana`. -/
theorem random_replies_are_candidates_witness :
    randomIndex (2 ^ 53 - 1) handlerThanks.length < handlerThanks.length ∧
    randomIndex (2 ^ 53 - 1) handlerByes.length < handlerByes.length ∧
    randomIndex (2 ^ 53 - 1) responses.feelings.length < responses.feelings.length ∧
    randomIndex (2 ^ 53 - 1) helloGreetings.length < helloGreetings.length ∧
    (∃ t, t ∈ handlerThanks ∧
      dispatch sampleEnv (2 ^ 53 - 1) "U1" "thank you" thanksResult =
        [.send (fbMessage "U1" (some t))]) ∧
    (∃ t, t ∈ handlerByes ∧
      dispatch sampleEnv (2 ^ 53 - 1) "U1" "see you" byeResult =
        [.send (fbMessage "U1" (some t))]) ∧
    (∃ t, t ∈ responses.feelings ∧ (recommendStep (2 ^ 53 - 1) "U1").text = some t ∧
      dispatch sampleEnv (2 ^ 53 - 1) "U1" "it happened" storyResult =
        [.send (recommendStep (2 ^ 53 - 1) "U1")]) ∧
    (∃ g, g ∈ ["Hey ", "Hello ", "Hi "] ∧
      dispatch sampleEnv (2 ^ 53 - 1) "U1" "hello" greetingResult =
        [.fetchProfile "U1", .send (fbMessage "U1" (some (g ++ "Ana" ++ "!")))]) :=
  random_replies_are_candidates sampleEnv (2 ^ 53 - 1) "U1" "Ana" (by decide) rfl

/-! ## The status answered by `POST /webhook` -/

/-- Every title offered by a scripted action, except `I did not`, is an
exact-match label of the dispatcher. -/
theorem scriptedTitles_matched :
    ∀ title ∈ scriptedTitles, title ≠ "I did not" → title ∈ exactLabels := by
  decide

/-- C15 (failing input): the title `I did not`, offered by
`recommendFinalStep`, is not an exact-match label (the dispatcher compares
with `I did Not`); sent as a message text with an empty classifier result it
reaches the fallback reply. -/
theorem handleEvent_title_I_did_not_falls_back :
    "I did not" ∈ (recommendFinalStep "U1").titles ∧
    "I did not" ∈ scriptedTitles ∧
    "I did not" ∉ exactLabels ∧
    "I did Not" ∈ exactLabels ∧
    sampleEnv.witMessage "I did not" = .ok emptyResult ∧
    handleEvent sampleEnv 0
        { sender := some { id := "U1" }
          message := some { is_echo := false, text := some "I did not", attachments := none }
          postback := none } =
      .ok [.witMessage "I did not",
        .send (fbMessage "U1"
          (some "This is embarrassing but I cannot understand your text: I did not."))] := by
  refine ⟨by decide, by decide, by decide, by decide, rfl, rfl⟩

/-! ## The paragraphs of the step actions -/

/-- C16 (failing input): `recommendStepFour` sends `responses.step_three[0]`,
the paragraph of `recommendStepThree`, and not `responses.step_four[0]`; the
texts of step three and step four are equal. -/
theorem recommendStepFour_sends_step_three (id : String) :
    (recommendStepFour id).text = responses.step_three.get? 0 ∧
    (recommendStepFour id).text ≠ responses.step_four.get? 0 ∧
    (recommendStepFour id).text = (recommendStepThree id).text ∧
    (recommendStepOne id).text = responses.step_one.get? 0 ∧
    (recommendStepTwo id).text = responses.step_two.get? 0 ∧
    (recommendStepThree id).text = responses.step_three.get? 0 ∧
    (recommendFinalStep id).text = responses.final_step.get? 0 := by
  refine ⟨rfl, ?_, rfl, rfl, rfl, rfl, rfl⟩
  show responses.step_three.get? 0 ≠ responses.step_four.get? 0
  intro h
  have h2 := congrArg (fun o => o.bind (fun s => s.data.get? 1)) h
  revert h2
  decide

/-! ## The walk through the steps -/

/-- The quick replies of step one lead to step two and to the break reply. -/
theorem anyReplySteps_step_one :
    anyReplySteps sampleEnv 0 (recommendStepOne "U1") =
      [recommendStepTwo "U1",
       fbMessage "U1" (some "Alright, just type 'step' when you are ready")] := by rfl

theorem anyReplySteps_step_two :
    anyReplySteps sampleEnv 0 (recommendStepTwo "U1") =
      [recommendStepThree "U1",
       fbMessage "U1" (some "Alright, just type 'step' when you are ready")] := by rfl

theorem anyReplySteps_step_three :
    anyReplySteps sampleEnv 0 (recommendStepThree "U1") =
      [recommendFinalStep "U1",
       fbMessage "U1" (some "Alright, just type 'step' when you are ready")] := by rfl

theorem anyReplySteps_final_step :
    anyReplySteps sampleEnv 0 (recommendFinalStep "U1") =
      [fbMessage "U1" (some "It may too much to ask but reporting a rape case to appropriate authorities is your civic responsibility and you may be saving another victim and at the same time making sure the guilty does not go free which will also deter future offenders."),
       fbMessage "U1"
         (some "This is embarrassing but I cannot understand your text: I did not.")] := by
  rfl

theorem anyReplySteps_fbMessage (env : Env) (draw : Nat) (id : String)
    (text : Option String) : anyReplySteps env draw (fbMessage id text) = [] := rfl

/-- Every action reached from step one offers `Go on`, `Keep Going`,
`Definitely` or `I reported` as its first quick reply, or offers none. -/
theorem reaches_step_one_titles (b : OutboundAction)
    (h : Reaches sampleEnv 0 (recommendStepOne "U1") b) :
    b = recommendStepOne "U1" ∨ b = recommendStepTwo "U1" ∨ b = recommendStepThree "U1" ∨
      b = recommendFinalStep "U1" ∨ ∃ text, b = fbMessage "U1" text := by
  induction h with
  | refl => exact Or.inl rfl
  | step b c _ hc ih =>
    rcases ih with h | h | h | h | ⟨text, h⟩
    · subst h
      rw [anyReplySteps_step_one] at hc
      simp only [List.mem_cons, List.mem_singleton, List.not_mem_nil, or_false] at hc
      rcases hc with hc | hc
      · exact Or.inr (Or.inl hc)
      · exact Or.inr (Or.inr (Or.inr (Or.inr ⟨_, hc⟩)))
    · subst h
      rw [anyReplySteps_step_two] at hc
      simp only [List.mem_cons, List.mem_singleton, List.not_mem_nil, or_false] at hc
      rcases hc with hc | hc
      · exact Or.inr (Or.inr (Or.inl hc))
      · exact Or.inr (Or.inr (Or.inr (Or.inr ⟨_, hc⟩)))
    · subst h
      rw [anyReplySteps_step_three] at hc
      simp only [List.mem_cons, List.mem_singleton, List.not_mem_nil, or_false] at hc
      rcases hc with hc | hc
      · exact Or.inr (Or.inr (Or.inr (Or.inl hc)))
      · exact Or.inr (Or.inr (Or.inr (Or.inr ⟨_, hc⟩)))
    · subst h
      rw [anyReplySteps_final_step] at hc
      simp only [List.mem_cons, List.mem_singleton, List.not_mem_nil, or_false] at hc
      rcases hc with hc | hc
      · exact Or.inr (Or.inr (Or.inr (Or.inr ⟨_, hc⟩)))
      · exact Or.inr (Or.inr (Or.inr (Or.inr ⟨_, hc⟩)))
    · subst h
      rw [anyReplySteps_fbMessage] at hc
      simp at hc

/-- C17 (failing input): the walk that starts at the step-one action visits
step one, step two, step three and then the final step, after which it ends
on the reporting reply: step three steps to the final step, not to step
four.  The step-four action is not on the walk, and it is not reachable from
step one through any quick reply at all. -/
theorem walk_from_step_one_skips_step_four :
    walk sampleEnv 0 10 (recommendStepOne "U1") =
      [recommendStepOne "U1", recommendStepTwo "U1", recommendStepThree "U1",
       recommendFinalStep "U1",
       fbMessage "U1" (some "It may too much to ask but reporting a rape case to appropriate authorities is your civic responsibility and you may be saving another victim and at the same time making sure the guilty does not go free which will also deter future offenders.")] ∧
    firstReplyStep sampleEnv 0 (recommendStepThree "U1") = some (recommendFinalStep "U1") ∧
    firstReplyStep sampleEnv 0 (recommendStepFour "U1") = some (recommendStepFour "U1") ∧
    ¬ Reaches sampleEnv 0 (recommendStepOne "U1") (recommendStepFour "U1") := by
  refine ⟨by rfl, by rfl, by rfl, ?_⟩
  intro h
  have htitles : ∀ a : OutboundAction, a = recommendStepFour "U1" →
      a.titles = ["Next Step", "Not now"] := fun a ha => by rw [ha]; rfl
  rcases reaches_step_one_titles _ h with h | h | h | h | ⟨text, h⟩
  · have := htitles _ h.symm
    revert this
    decide
  · have := htitles _ h.symm
    revert this
    decide
  · have := htitles _ h.symm
    revert this
    decide
  · have := htitles _ h.symm
    revert this
    decide
  · have := htitles _ h.symm
    simp [fbMessage, OutboundAction.titles] at this


end Stigmatized
